import Mathlib

/-!
Shallow embedding of the Booking.com scraper core (src/scraper/booking.js and
src/scraper/config.js) together with proofs of its specified properties.

Strings are modelled as lists of characters.  The JavaScript regular
expressions used by the extractors are transcribed one-for-one into a small
backtracking pattern language (`Pat`) whose matcher reproduces JavaScript
first-match semantics: leftmost match, greedy and lazy repetition with
backtracking, left-biased alternation, case-insensitive literals for the
patterns carrying the i flag, word boundaries and lookahead.  Every
repetition operator in the source operates on a single-character class, so
the pattern language restricts repetition to character classes; this keeps
matching structurally terminating.
-/

namespace Booking

/-- Character test for ASCII digits, the JS regex class \d. -/
def isDigitC (c : Char) : Bool := 48 ≤ c.toNat && c.toNat ≤ 57

/-- Character test for the JS regex class \s (ASCII whitespace plus NBSP). -/
def isSpaceC (c : Char) : Bool :=
  c.toNat = 32 || c.toNat = 9 || c.toNat = 10 || c.toNat = 13 ||
  c.toNat = 11 || c.toNat = 12 || c.toNat = 160

/-- Character test for the JS regex class \w ([A-Za-z0-9_]). -/
def isWordC (c : Char) : Bool :=
  isDigitC c || (65 ≤ c.toNat && c.toNat ≤ 90) ||
  (97 ≤ c.toNat && c.toNat ≤ 122) || c.toNat = 95

/-- ASCII lower-casing of one character, as JS toLowerCase acts on ASCII. -/
def lowerC (c : Char) : Char :=
  if 65 ≤ c.toNat && c.toNat ≤ 90 then Char.ofNat (c.toNat + 32) else c

/-- Pattern language covering the regular expressions of the scraper. -/
inductive Pat : Type where
  | eps : Pat
  | lit (ci : Bool) (t : List Char) : Pat
  | one (p : Char → Bool) : Pat
  | starG (p : Char → Bool) : Pat
  | starL (p : Char → Bool) : Pat
  | plusG (p : Char → Bool) : Pat
  | repL (lo hi : Nat) (p : Char → Bool) : Pat
  | repG (lo hi : Nat) (p : Char → Bool) : Pat
  | seq (a b : Pat) : Pat
  | alt (a b : Pat) : Pat
  | grp (i : Nat) (r : Pat) : Pat
  | wb : Pat
  | la (r : Pat) : Pat
  | eos : Pat

/-- Captured groups of one match: group index paired with captured text. -/
abbrev Caps := List (Nat × List Char)

/-- Record a capture, overwriting an earlier capture of the same group. -/
def capSet (i : Nat) (v : List Char) : Caps → Caps
  | [] => [(i, v)]
  | (j, w) :: r => if i = j then (i, v) :: r else (j, w) :: capSet i v r

/-- Matcher continuations receive the remaining input, the previous character
(for word boundaries) and the captures accumulated so far. -/
abbrev K := List Char → Option Char → Caps → Option Caps

/-- Consume a literal, case-sensitively or not, tracking the previous char. -/
def litStep (ci : Bool) : List Char → List Char → Option Char →
    Option (List Char × Option Char)
  | [], s, pr => some (s, pr)
  | _ :: _, [], _ => none
  | c :: t, x :: s, _ =>
    if (if ci then lowerC c = lowerC x else c = x) then litStep ci t s (some x)
    else none

/-- Try repetition counts n, n-1, ..., 0 (greedy backtracking order). -/
def tryDown (k : Nat → Option Caps) : Nat → Option Caps
  | 0 => k 0
  | n + 1 =>
    match k (n + 1) with
    | some r => some r
    | none => tryDown k n

/-- Try repetition counts i, i+1, ..., i+n (lazy order). -/
def tryUp (k : Nat → Option Caps) : Nat → Nat → Option Caps
  | 0, i => k i
  | n + 1, i =>
    match k i with
    | some r => some r
    | none => tryUp k n (i + 1)

/-- Backtracking matcher in continuation-passing style. -/
def mtch : Pat → List Char → Option Char → Caps → K → Option Caps
  | .eps, s, pr, cp, k => k s pr cp
  | .lit ci t, s, pr, cp, k =>
    match litStep ci t s pr with
    | some (s2, pr2) => k s2 pr2 cp
    | none => none
  | .one p, s, _, cp, k =>
    match s with
    | [] => none
    | c :: s2 => if p c then k s2 (some c) cp else none
  | .starG p, s, pr, cp, k =>
    tryDown (fun j => k (s.drop j) (if j = 0 then pr else s.get? (j - 1)) cp)
      (s.takeWhile p).length
  | .starL p, s, pr, cp, k =>
    tryUp (fun j => k (s.drop j) (if j = 0 then pr else s.get? (j - 1)) cp)
      (s.takeWhile p).length 0
  | .plusG p, s, _, cp, k =>
    tryDown (fun j => if j = 0 then none else k (s.drop j) (s.get? (j - 1)) cp)
      (s.takeWhile p).length
  | .repL lo hi p, s, pr, cp, k =>
    let m := min hi (s.takeWhile p).length
    if lo ≤ m then
      tryUp (fun j => k (s.drop j) (if j = 0 then pr else s.get? (j - 1)) cp)
        (m - lo) lo
    else none
  | .repG lo hi p, s, pr, cp, k =>
    let m := min hi (s.takeWhile p).length
    if lo ≤ m then
      tryDown (fun j =>
        if j < lo then none
        else k (s.drop j) (if j = 0 then pr else s.get? (j - 1)) cp) m
    else none
  | .seq a b, s, pr, cp, k => mtch a s pr cp (fun s2 pr2 cp2 => mtch b s2 pr2 cp2 k)
  | .alt a b, s, pr, cp, k =>
    match mtch a s pr cp k with
    | some r => some r
    | none => mtch b s pr cp k
  | .grp i r, s, pr, cp, k =>
    mtch r s pr cp (fun s2 pr2 cp2 =>
      k s2 pr2 (capSet i (s.take (s.length - s2.length)) cp2))
  | .wb, s, pr, cp, k =>
    let wl := match pr with | some c => isWordC c | none => false
    let wr := match s with | c :: _ => isWordC c | [] => false
    if wl ≠ wr then k s pr cp else none
  | .la r, s, pr, cp, k =>
    match mtch r s pr cp (fun _ _ cp2 => some cp2) with
    | some _ => k s pr cp
    | none => none
  | .eos, s, pr, cp, k =>
    match s with
    | [] => k s pr cp
    | _ :: _ => none

/-- Attempt a match anchored at the start of s; group 0 is the whole match. -/
def mrun (r : Pat) (s : List Char) (pr : Option Char) : Option Caps :=
  mtch (.grp 0 r) s pr [] (fun _ _ cp => some cp)

/-- Find the leftmost match, returning its start index and captures. -/
def reFindAux (r : Pat) : List Char → Option Char → Nat → Option (Nat × Caps)
  | [], pr, i => (mrun r [] pr).map (fun cp => (i, cp))
  | c :: s2, pr, i =>
    match mrun r (c :: s2) pr with
    | some cp => some (i, cp)
    | none => reFindAux r s2 (some c) (i + 1)

/-- JS String.prototype.match against a non-global regex: leftmost captures. -/
def reMatch (r : Pat) (s : List Char) : Option Caps :=
  (reFindAux r s none 0).map (·.2)

/-- JS RegExp.prototype.test: does the pattern match anywhere. -/
def reTest (r : Pat) (s : List Char) : Bool :=
  (reFindAux r s none 0).isSome

/-- Group accessor on a capture list. -/
def capGet (cp : Caps) (i : Nat) : Option (List Char) := cp.lookup i

/-- Iterated exec of a global regex: all matches, left to right, resuming
after each match (advancing at least one character). -/
def reExecAllAux (r : Pat) : Nat → List Char → Option Char → List Caps → List Caps
  | 0, _, _, acc => acc.reverse
  | fuel + 1, s, pr, acc =>
    match reFindAux r s pr 0 with
    | none => acc.reverse
    | some (i, cp) =>
      let m := (capGet cp 0).getD []
      let adv := i + max 1 m.length
      reExecAllAux r fuel (s.drop adv) (s.get? (adv - 1)) (cp :: acc)

/-- All matches of a global regex in s. -/
def reExecAll (r : Pat) (s : List Char) : List Caps :=
  reExecAllAux r (s.length + 1) s none []

/-- Sequence a list of patterns. -/
def pseq (l : List Pat) : Pat := l.foldr .seq .eps

/-- Case-sensitive literal pattern from a string. -/
def lits (s : String) : Pat := .lit false s.data

/-- Case-insensitive literal pattern from a string. -/
def litsCI (s : String) : Pat := .lit true s.data

/-- Left-biased alternation of a list of patterns. -/
def altL : List Pat → Pat
  | [] => .one (fun _ => false)
  | [p] => p
  | p :: r => .alt p (altL r)

/-- Optional single character (greedy), as in the regex form x?. -/
def optC (p : Char → Bool) : Pat := .alt (.one p) .eps

/-! ## String helpers shared by the extraction functions -/

/-- Worker of the all-occurrences literal replacement: a positive skip
count drops characters already consumed by an emitted replacement. -/
def replaceAllGo (pat rep : List Char) : List Char → Nat → List Char
  | [], _ => []
  | _ :: s, skip + 1 => replaceAllGo pat rep s skip
  | c :: s, 0 =>
    if pat.isPrefixOf (c :: s) ∧ pat ≠ [] then
      rep ++ replaceAllGo pat rep s (pat.length - 1)
    else c :: replaceAllGo pat rep s 0

/-- All-occurrences literal replacement, left to right, without rescanning
the replacement text (JS String.replace with a global literal pattern). -/
def replaceAllL (pat rep : List Char) (s : List Char) : List Char :=
  replaceAllGo pat rep s 0

/-- Worker of the tag-stripping replacement. -/
def stripTagsGo (rep : List Char) : List Char → Nat → List Char
  | [], _ => []
  | _ :: s, skip + 1 => stripTagsGo rep s skip
  | c :: s, 0 =>
    if c = '<' then
      let run := s.takeWhile (fun x => x ≠ '>')
      if run ≠ [] ∧ s.drop run.length ≠ [] then
        rep ++ stripTagsGo rep s (run.length + 1)
      else c :: stripTagsGo rep s 0
    else c :: stripTagsGo rep s 0

/-- Global replacement of the tag pattern <[^>]+> by rep (JS replace). -/
def stripTags (rep : List Char) (s : List Char) : List Char :=
  stripTagsGo rep s 0

/-- Worker of the whitespace-run replacement. -/
def collapseWsGo (minRun : Nat) : List Char → Nat → List Char
  | [], _ => []
  | _ :: s, skip + 1 => collapseWsGo minRun s skip
  | c :: s, 0 =>
    if isSpaceC c then
      let run := s.takeWhile isSpaceC
      if run.length + 1 ≥ minRun then ' ' :: collapseWsGo minRun s run.length
      else c :: collapseWsGo minRun s 0
    else c :: collapseWsGo minRun s 0

/-- Global replacement of whitespace runs of length at least minRun by one
space (the JS replacements of the forms s{2,} and s+ over whitespace). -/
def collapseWs (minRun : Nat) (s : List Char) : List Char :=
  collapseWsGo minRun s 0

/-- JS String.prototype.trim restricted to the whitespace the scraper meets. -/
def trimL (s : List Char) : List Char :=
  ((s.dropWhile isSpaceC).reverse.dropWhile isSpaceC).reverse

/-- Value of an all-digit character list. -/
def digitsToNat (s : List Char) : Nat :=
  s.foldl (fun a c => 10 * a + (c.toNat - 48)) 0

/-- JS parseInt(x, 10) on the all-digit strings produced by the capture
groups of the scraper after comma stripping. -/
def parseIntJS (s : List Char) : Nat := digitsToNat (s.takeWhile isDigitC)

/-- JS parseFloat on strings of the shape -?digits(.digits)?, the only
shapes produced by the numeric capture groups of the scraper; exact
rationals stand in for IEEE doubles (the parsed values are only stored,
never computed with). -/
def parseFloatR (s : List Char) : Rat :=
  let (neg, s) :=
    match s with
    | c :: r => if c = '-' then (true, r) else (false, c :: r)
    | [] => (false, [])
  let ip := s.takeWhile isDigitC
  let rest := s.drop ip.length
  let fp :=
    match rest with
    | c :: r => if c = '.' then r.takeWhile isDigitC else []
    | [] => []
  let v : Rat := (digitsToNat ip : Rat) + (digitsToNat fp : Rat) / ((10 : Rat) ^ fp.length)
  if neg then -v else v

/-- Split a character list at every occurrence of the separator. -/
def splitChar (sep : Char) : List Char → List (List Char)
  | [] => [[]]
  | c :: s =>
    if c = sep then [] :: splitChar sep s
    else
      match splitChar sep s with
      | [] => [[c]]
      | h :: t => (c :: h) :: t

/-! ## Dates and search-URL construction (buildSearchURL, booking.js 42-68) -/

/-- Civil date (year, month, day) of a count of days since 1970-01-01 (the
JS epoch), by the standard Gregorian era decomposition. -/
def civilFromDays (n : Nat) : Nat × Nat × Nat :=
  let z := n + 719468
  let era := z / 146097
  let doe := z % 146097
  let yoe := (doe - doe / 1460 + doe / 36524 - doe / 146096) / 365
  let y := yoe + era * 400
  let doy := doe - (365 * yoe + yoe / 4 - yoe / 100)
  let mp := (5 * doy + 2) / 153
  let d := doy - (153 * mp + 2) / 5 + 1
  let m := if mp < 10 then mp + 3 else mp - 9
  (if m ≤ 2 then y + 1 else y, m, d)

/-- Zero-padded two-digit rendering. -/
def pad2 (n : Nat) : String := if n < 10 then "0" ++ toString n else toString n

/-- formatDate of buildSearchURL: toISOString().split(the letter T)[0], the
YYYY-MM-DD rendering of the date n days after the epoch. -/
def formatDate (n : Nat) : String :=
  let c := civilFromDays n
  toString c.1 ++ "-" ++ pad2 c.2.1 ++ "-" ++ pad2 c.2.2

/-- JS expression o || dflt for an optional string (undefined and the empty
string are falsy). -/
def jsOrS (o : Option String) (dflt : String) : String :=
  match o with
  | some s => if s = "" then dflt else s
  | none => dflt

/-- JS expression o || dflt for an optional number (undefined and 0 are
falsy). -/
def jsOrN (o : Option Nat) (dflt : Nat) : Nat :=
  match o with
  | some n => if n = 0 then dflt else n
  | none => dflt

/-- JS truthiness of an optional string configuration value. -/
def truthyS : Option String → Bool
  | some s => s ≠ ""
  | none => false

/-- Options bag accepted by buildSearchURL and scrapeBookingHotels. -/
structure SearchOptions where
  checkin : Option String := none
  checkout : Option String := none
  adults : Option Nat := none
  rooms : Option Nat := none
  children : Option Nat := none
  currency : Option String := none
  useZyte : Bool := false
  noRetry : Bool := false
deriving DecidableEq, Repr

/-- UTF-8 bytes of one character. -/
def utf8Bytes (c : Char) : List Nat :=
  let n := c.toNat
  if n < 128 then [n]
  else if n < 2048 then [192 + n / 64, 128 + n % 64]
  else if n < 65536 then [224 + n / 4096, 128 + (n / 64) % 64, 128 + n % 64]
  else [240 + n / 262144, 128 + (n / 4096) % 64, 128 + (n / 64) % 64, 128 + n % 64]

/-- Upper-case hexadecimal digit. -/
def hexDigit (n : Nat) : Char :=
  if n < 10 then Char.ofNat (48 + n) else Char.ofNat (55 + n)

/-- Characters the urlencoded serializer keeps verbatim ([A-Za-z0-9*-._]). -/
def urlencKeep (c : Char) : Bool :=
  isDigitC c || (65 ≤ c.toNat && c.toNat ≤ 90) || (97 ≤ c.toNat && c.toNat ≤ 122) ||
  c = '*' || c = '-' || c = '.' || c.toNat = 95

/-- Escaping applied by URLSearchParams.toString to keys and values: space
becomes +, unreserved characters stay, all else is percent-encoded bytewise. -/
def urlencode (s : String) : String :=
  String.mk (s.data.foldr (fun c acc =>
    if c.toNat = 32 then '+' :: acc
    else if urlencKeep c then c :: acc
    else (utf8Bytes c).foldr
      (fun b a => '%' :: hexDigit (b / 16) :: hexDigit (b % 16) :: a) acc) [])

/-- URLSearchParams.toString: ampersand-joined key=value pairs in order. -/
def serializeParams (l : List (String × String)) : String :=
  String.intercalate "&" (l.map (fun kv => urlencode kv.1 ++ "=" ++ urlencode kv.2))

/-- Fixed label parameter embedded in every search URL by buildSearchURL. -/
def bookingLabel : String :=
  "gen173bo-1DCAEoggI46AdIM1gDaGiIAQGYATG4ARfIAQzYAQHoAQGIAgGoAgO4AsmNrr0GwAIB0gIkYWI1NmZlYmEtNTA4Yy00ZjIyLWIzOTItYTRkMjYyZDVlMTU52AIE4AIB"

/-- Query parameters assembled by buildSearchURL (booking.js lines 42-68).
today is the current date (days since the JS epoch) observed through
new Date(); the source computes defaultCheckin = today + 1 day and
defaultCheckout = defaultCheckin + 2 days before consulting the options. -/
def buildSearchParams (today : Nat) (location : String) (options : SearchOptions) :
    List (String × String) :=
  let defaultCheckin := today + 1
  let defaultCheckout := defaultCheckin + 2
  [("ss", location),
   ("checkin", jsOrS options.checkin (formatDate defaultCheckin)),
   ("checkout", jsOrS options.checkout (formatDate defaultCheckout)),
   ("group_adults", toString (jsOrN options.adults 2)),
   ("no_rooms", toString (jsOrN options.rooms 1)),
   ("group_children", toString (jsOrN options.children 0)),
   ("lang", "en-us"),
   ("selected_currency", jsOrS options.currency "USD"),
   ("aid", "304142"),
   ("label", bookingLabel)]

/-- Base of every search URL. -/
def bookingSearchBase : String := "https://www.booking.com/searchresults.html"

/-- buildSearchURL (booking.js lines 42-68). -/
def buildSearchURL (today : Nat) (location : String) (options : SearchOptions) : String :=
  bookingSearchBase ++ "?" ++ serializeParams (buildSearchParams today location options)

/-! ## decodeHtmlEntities and cleanHotelUrl (booking.js 132-170) -/

/-- Single-quote character as a string (written via its code point). -/
def sQuote : String := String.singleton (Char.ofNat 39)

/-- decodeHtmlEntities (booking.js lines 132-141): sequential global literal
replacements, in source order. -/
def decodeHtmlEntitiesL (s : List Char) : List Char :=
  replaceAllL "&apos;".data sQuote.data
    (replaceAllL "&#39;".data sQuote.data
      (replaceAllL "&quot;".data "\"".data
        (replaceAllL "&gt;".data ">".data
          (replaceAllL "&lt;".data "<".data
            (replaceAllL "&amp;".data "&".data s)))))

/-- decodeHtmlEntities on whole strings. -/
def decodeHtmlEntities (s : String) : String := String.mk (decodeHtmlEntitiesL s.data)

/-- Parsed view of a URL as produced by new URL(u): origin (scheme://host),
pathname, and the decoded query parameters in order. -/
structure UrlParts where
  origin : String
  pathname : String
  query : List (String × String)
deriving DecidableEq, Repr

/-- Hexadecimal digit value. -/
def hexVal (c : Char) : Option Nat :=
  if 48 ≤ c.toNat && c.toNat ≤ 57 then some (c.toNat - 48)
  else if 65 ≤ c.toNat && c.toNat ≤ 70 then some (c.toNat - 55)
  else if 97 ≤ c.toNat && c.toNat ≤ 102 then some (c.toNat - 87)
  else none

/-- Percent/plus decoding applied by URLSearchParams to keys and values;
the model decodes ASCII escapes and leaves other escapes untouched (the
scraper URLs carry no multi-byte escapes). -/
def pctDecodeL : List Char → List Char
  | [] => []
  | '+' :: s => ' ' :: pctDecodeL s
  | '%' :: a :: b :: r =>
    (match hexVal a, hexVal b with
     | some x, some y =>
       if x * 16 + y < 128 then Char.ofNat (x * 16 + y) :: pctDecodeL r
       else '%' :: a :: b :: pctDecodeL r
     | _, _ => '%' :: pctDecodeL (a :: b :: r))
  | c :: s => c :: pctDecodeL s

/-- Query-string parsing of URLSearchParams: ampersand-separated segments,
empty segments skipped, each split at its first equals sign, both sides
decoded. -/
def parseQuery (s : List Char) : List (String × String) :=
  (splitChar '&' s).filterMap (fun seg =>
    if seg = [] then none
    else
      let k := seg.takeWhile (fun c => c ≠ '=')
      let rest := seg.drop k.length
      let v := match rest with | _ :: r => r | [] => []
      some (String.mk (pctDecodeL k), String.mk (pctDecodeL v)))

/-- Parser standing in for new URL(u), for http(s) URLs without fragments:
scheme and host form the origin, the path up to the query is the pathname
(defaulting to a single slash), and the query is split into parameters.
URLs outside this shape make the parser fail, which models the exception
path of the source. -/
def parseURL (url : String) : Option UrlParts :=
  let s := url.data
  let scheme :=
    if "https://".data.isPrefixOf s then some ("https://".data, s.drop 8)
    else if "http://".data.isPrefixOf s then some ("http://".data, s.drop 7)
    else none
  match scheme with
  | none => none
  | some (sch, rest) =>
    let host := rest.takeWhile (fun c => c ≠ '/' && c ≠ '?' && c ≠ '#')
    if host = [] then none
    else
      let after := rest.drop host.length
      if after.contains '#' then none
      else
        let path := after.takeWhile (fun c => c ≠ '?')
        let qpart := after.drop path.length
        let q := match qpart with | _ :: r => parseQuery r | [] => []
        some { origin := String.mk (sch ++ host),
               pathname := if path = [] then "/" else String.mk path,
               query := q }

/-- Essential booking parameters retained by cleanHotelUrl, in source order. -/
def essentialParams : List String :=
  ["checkin", "checkout", "group_adults", "no_rooms", "group_children"]

/-- First value bound to key k in a parameter list (URLSearchParams.get). -/
def qGet (q : List (String × String)) (k : String) : Option String :=
  (q.find? (fun kv => kv.1 = k)).map (·.2)

/-- Essential-parameter filter of cleanHotelUrl: for each essential key in
the fixed order, keep the first value bound in q when the key is present. -/
def cleanParams (q : List (String × String)) : List (String × String) :=
  essentialParams.filterMap (fun p => (qGet q p).map (fun v => (p, v)))

/-- cleanHotelUrl (booking.js lines 146-170): decode HTML entities, parse the
URL, retain only the essential parameters, and re-serialize; falsy input and
parse failures return the input unchanged. -/
def cleanHotelUrl (url : String) : String :=
  if url = "" then url
  else
    match parseURL (decodeHtmlEntities url) with
    | none => url
    | some u =>
      let np := cleanParams u.query
      u.origin ++ u.pathname ++ (if np = [] then "" else "?" ++ serializeParams np)

/-! ## Listing extraction from HTML (extractHotelsFromHTML, booking.js 175-254) -/

/-- Character class [^>]. -/
def neGT (c : Char) : Bool := c ≠ '>'

/-- Character class [^<]. -/
def neLT (c : Char) : Bool := c ≠ '<'

/-- Character class [^"]. -/
def neDQ (c : Char) : Bool := c ≠ '"'

/-- Character class for the any-character idiom [\s\S]. -/
def anyc (_ : Char) : Bool := true

/-- First-match capture group access. -/
def matchGrp (r : Pat) (s : List Char) (i : Nat) : Option (List Char) :=
  (reMatch r s).bind (fun cp => capGet cp i)

/-- One hotel summary record of the listing extractors. -/
structure HotelSummary where
  name : String
  link : Option String
  picture_url : Option String
  rating : Option Rat
  reviews_count : Option Nat
  location : Option String
  price_per_night : Option String
  currency : Option String
deriving DecidableEq, Repr

/-- Opening-tag pattern of one property card. -/
def cardOpenRE : Pat :=
  pseq [litsCI "<div", .starG neGT, litsCI "data-testid=\"property-card\"",
        .starG neGT, litsCI ">"]

/-- Lookahead pattern delimiting the next card. -/
def cardNextRE : Pat :=
  pseq [litsCI "<div", .starG neGT, litsCI "data-testid=\"property-card\""]

/-- Global card regex of extractHotelsFromHTML: opening tag, lazy content,
and a lookahead at the next card or the end of input. -/
def cardRE : Pat :=
  pseq [cardOpenRE, .grp 1 (.starL anyc), .la (.alt cardNextRE .eos)]

/-- Card texts (match[0] of every global match of the card regex). -/
def splitCards (html : List Char) : List (List Char) :=
  (reExecAll cardRE html).filterMap (fun cp => capGet cp 0)

/-- Name pattern of the listing extractor. -/
def nameRE : Pat :=
  pseq [lits "data-testid=\"title\"", .starG neGT, lits ">",
        .grp 1 (.plusG neLT), lits "<"]

/-- Link pattern of the listing extractor. -/
def linkRE : Pat :=
  pseq [lits "href=\"",
        .grp 1 (pseq [lits "https://www.booking.com/hotel/", .plusG neDQ]),
        lits "\""]

/-- Image patterns of the listing extractor, in source order. -/
def imgREs : List Pat :=
  [pseq [litsCI "data-testid=\"image\"", .starL anyc, litsCI "<img", .starG neGT,
         litsCI "src=\"",
         .grp 1 (pseq [.plusG neDQ, litsCI "bstatic.com", .plusG neDQ]), litsCI "\""],
   pseq [litsCI "<img", .starG neGT, litsCI "data-testid=\"image\"", .starG neGT,
         litsCI "src=\"",
         .grp 1 (pseq [.plusG neDQ, litsCI "bstatic.com", .plusG neDQ]), litsCI "\""],
   pseq [litsCI "src=\"",
         .grp 1 (pseq [litsCI "https://cf.bstatic.com/xdata/images/hotel", .plusG neDQ]),
         litsCI "\""],
   pseq [litsCI "<img", .starG neGT, litsCI "src=\"",
         .grp 1 (pseq [.plusG neDQ, litsCI "bstatic.com/xdata/images/hotel", .plusG neDQ]),
         litsCI "\""]]

/-- Rating pattern of the listing extractor. -/
def ratingRE : Pat :=
  pseq [lits "data-testid=\"review-score\"", .starL anyc,
        .grp 1 (pseq [.plusG isDigitC, optC (fun c => c = '.'), .starG isDigitC])]

/-- Reviews-count pattern of the listing extractor. -/
def reviewsRE : Pat :=
  pseq [.grp 1 (pseq [.one isDigitC, .starG (fun c => isDigitC c || c = ',')]),
        .starG isSpaceC, litsCI "review"]

/-- Address pattern of the listing extractor. -/
def addressRE : Pat :=
  pseq [lits "data-testid=\"address\"", .starG neGT, lits ">",
        .grp 1 (.plusG neLT), lits "<"]

/-- Distance pattern of the listing extractor. -/
def distanceRE : Pat :=
  pseq [lits "data-testid=\"distance\"", .starG neGT, lits ">",
        .grp 1 (.plusG neLT), lits "<"]

/-- Digit-comma-dot amount class [\d,.]. -/
def amtC (c : Char) : Bool := isDigitC c || c = ',' || c = '.'

/-- Currency-token alternation used by the free-text price patterns. -/
def currencyTokRE : Pat :=
  altL [lits "USD", lits "EUR", lits "GBP", lits "AED", lits "INR",
        lits "$", lits "€", lits "£"]

/-- Price patterns of the listing extractor, in source order. -/
def priceREs : List Pat :=
  [pseq [lits "data-testid=\"price-and-discounted-price\"", .starG neGT, lits ">",
         .starL neLT, .grp 1 (pseq [.one isDigitC, .plusG amtC])],
   pseq [lits "data-testid=\"price\"", .starG neGT, lits ">",
         .starL neLT, .grp 1 (pseq [.one isDigitC, .plusG amtC])],
   pseq [lits "\"displayedPrice\"", .starL (fun c => c.toNat ≠ 125),
         lits "\"amount\":", .grp 1 (.plusG isDigitC)],
   pseq [litsCI "class=\"", .starG neDQ, litsCI "price", .starG neDQ, litsCI "\"",
         .starG neGT, litsCI ">", .starG (fun c => ¬ isDigitC c),
         .grp 1 (pseq [.one isDigitC, .plusG amtC])],
   pseq [.grp 1 (pseq [.one isDigitC, .starG (fun c => isDigitC c || c = ',')]),
         .starG isSpaceC, currencyTokRE],
   pseq [currencyTokRE, .starG isSpaceC,
         .grp 1 (pseq [.one isDigitC, .starG (fun c => isDigitC c || c = ',')])]]

/-- First pattern in the list that matches with a non-empty first group
(the image-pattern loop tests imgMatch and imgMatch[1]). -/
def firstCaptureNE : List Pat → List Char → Option (List Char)
  | [], _ => none
  | p :: r, s =>
    match matchGrp p s 1 with
    | some v => if v ≠ [] then some v else firstCaptureNE r s
    | none => firstCaptureNE r s

/-- First pattern in the list that matches at all (the price-pattern loop
tests only the match object). -/
def firstCapture : List Pat → List Char → Option (List Char)
  | [], _ => none
  | p :: r, s =>
    match reMatch p s with
    | some cp => capGet cp 1
    | none => firstCapture r s

/-- Per-card processing of extractHotelsFromHTML (booking.js 182-251): a
card without a truthy name yields no record. -/
def processCard (cardHtml : List Char) : Option HotelSummary :=
  let name? := (matchGrp nameRE cardHtml 1).map (fun v => decodeHtmlEntitiesL (trimL v))
  let link := (matchGrp linkRE cardHtml 1).map (fun v => cleanHotelUrl (String.mk v))
  let pictureUrl := (firstCaptureNE imgREs cardHtml).map
    (fun v => String.mk (decodeHtmlEntitiesL v))
  let rating := (matchGrp ratingRE cardHtml 1).map parseFloatR
  let reviews := (matchGrp reviewsRE cardHtml 1).map
    (fun v => parseIntJS (v.filter (fun c => c ≠ ',')))
  let address := (matchGrp addressRE cardHtml 1).map
    (fun v => String.mk (decodeHtmlEntitiesL (trimL v)))
  let dist := (matchGrp distanceRE cardHtml 1).map
    (fun v => String.mk (decodeHtmlEntitiesL (trimL v)))
  let location : Option String :=
    match dist with
    | some d =>
      some (match address with
            | some a => if a ≠ "" then a ++ " - " ++ d else d
            | none => d)
    | none => address
  let price := (firstCapture priceREs cardHtml).map
    (fun v => String.mk (v.filter (fun c => c ≠ ',')))
  match name? with
  | some nm =>
    if nm ≠ [] then
      some { name := String.mk nm, link := link, picture_url := pictureUrl,
             rating := rating, reviews_count := reviews, location := location,
             price_per_night := price, currency := none }
    else none
  | none => none

/-- extractHotelsFromHTML (booking.js 175-254). -/
def extractHotelsFromHTML (html : List Char) : List HotelSummary :=
  (splitCards html).filterMap processCard

/-! ## In-page extraction of scrapeWithPuppeteer (booking.js 460-526) -/

/-- Observable content of one property card as the evaluated in-page script
reads it through the DOM: the innerText of the card and the results of the
querySelector probes the script performs.  The DOM lives in the rendering
backend, outside the core, so these probe results are the input type of the
script. -/
structure DomCard where
  cardText : String
  nameText : Option String
  addressText : Option String
  priceText : Option String
  linkHref : Option String
  hasImg : Bool
  imgSrc : Option String
  imgDataSrc : Option String
deriving DecidableEq, Repr

/-- Scored-rating pattern of the in-page script. -/
def scoredRE : Pat :=
  pseq [litsCI "Scored", .plusG isSpaceC,
        .grp 1 (pseq [.plusG isDigitC, optC (fun c => c = '.'), .starG isDigitC])]

/-- Bare decimal fallback rating pattern of the in-page script. -/
def bareRatingRE : Pat :=
  .grp 1 (pseq [.plusG isDigitC, lits ".", .one isDigitC])

/-- Reviews pattern of the in-page script. -/
def evalReviewsRE : Pat :=
  pseq [.grp 1 (pseq [.one isDigitC, .starG (fun c => isDigitC c || c = ',')]),
        .starG isSpaceC,
        .alt (pseq [litsCI "verified", .starG isSpaceC]) .eps,
        litsCI "review", optC (fun c => lowerC c = 's')]

/-- Location pattern: text on one line before a Show on map link. -/
def showMapRE : Pat :=
  pseq [.grp 1 (.plusG (fun c => c.toNat ≠ 10)), litsCI "Show on map"]

/-- Fallback location pattern: distance from downtown. -/
def downtownRE : Pat :=
  .grp 1 (pseq [.plusG isDigitC, optC (fun c => c = '.'), .starG isDigitC,
                litsCI " km from downtown"])

/-- Price-digits pattern of the in-page script. -/
def evalPriceRE : Pat :=
  .grp 1 (pseq [.one isDigitC, .starG (fun c => isDigitC c || c = ',')])

/-- Body of the forEach in the evaluated script (booking.js 464-517) for one
card at index i: cards at index 25 and beyond and cards without a name
element are skipped. -/
def evaluateCard (i : Nat) (c : DomCard) : Option HotelSummary :=
  if 25 ≤ i then none
  else
    match c.nameText with
    | none => none
    | some nt =>
      let txt := c.cardText.data
      let rating :=
        (match matchGrp scoredRE txt 1 with
         | some v => some v
         | none => matchGrp bareRatingRE txt 1).map parseFloatR
      let reviews := (matchGrp evalReviewsRE txt 1).map
        (fun v => parseIntJS (v.filter (fun x => x ≠ ',')))
      let location : Option String :=
        match (match matchGrp showMapRE txt 1 with
               | some v => some v
               | none => matchGrp downtownRE txt 1) with
        | some v => some (String.mk (trimL v))
        | none =>
          match c.addressText with
          | some a =>
            if trimL a.data ≠ [] then some (String.mk (trimL a.data)) else none
          | none => none
      let price := c.priceText.bind (fun pt =>
        (matchGrp evalPriceRE pt.data 1).map
          (fun v => String.mk (v.filter (fun x => x ≠ ','))))
      some { name := String.mk (trimL nt.data),
             link := c.linkHref,
             picture_url :=
               if c.hasImg then
                 match c.imgSrc with
                 | some s => if s ≠ "" then some s else c.imgDataSrc
                 | none => c.imgDataSrc
               else none,
             rating := rating, reviews_count := reviews, location := location,
             price_per_night := price, currency := some "$" }

/-- Evaluated script over the whole card list (the forEach). -/
def evaluateCards (cards : List DomCard) : List HotelSummary :=
  (cards.enum).filterMap (fun ic => evaluateCard ic.1 ic.2)

/-- Post-evaluation link canonicalization of scrapeWithPuppeteer
(booking.js 523-526). -/
def cleanListing (h : HotelSummary) : HotelSummary :=
  { h with link := h.link.map cleanHotelUrl }

/-- Hotels returned by the Puppeteer search path once cards are selected. -/
def puppeteerHotels (cards : List DomCard) : List HotelSummary :=
  (evaluateCards cards).map cleanListing

/-! ## Detail extraction helpers (extractHotelDetailsFromHTML) -/

/-- Character class [a-z0-9]. -/
def isLowerAlnum (c : Char) : Bool :=
  isDigitC c || (97 ≤ c.toNat && c.toNat ≤ 122)

/-- ASCII lower-casing of a character list (JS toLowerCase). -/
def lowerS (s : List Char) : List Char := s.map lowerC

/-- Dropping a prefix never lengthens a list. -/
theorem dropWhile_len_le {α : Type} (p : α → Bool) (l : List α) :
    (l.dropWhile p).length ≤ l.length := by
  induction l with
  | nil => simp [List.dropWhile]
  | cons c s ih =>
    by_cases h : p c
    · simp only [List.dropWhile, h]
      exact Nat.le_trans ih (Nat.le_succ _)
    · simp [List.dropWhile, h]

/-- Worker of the underscore-run replacement. -/
def underscoreRunsGo : List Char → Nat → List Char
  | [], _ => []
  | _ :: s, skip + 1 => underscoreRunsGo s skip
  | c :: s, 0 =>
    if isLowerAlnum c then c :: underscoreRunsGo s 0
    else '_' :: underscoreRunsGo s (s.takeWhile (fun x => ¬ isLowerAlnum x)).length

/-- Replacement of every [^a-z0-9]+ run by a single underscore. -/
def underscoreRuns (s : List Char) : List Char := underscoreRunsGo s 0

/-- Removal of one leading and one trailing underscore (the JS global
replacement of the pattern anchored-start-underscore or underscore-end). -/
def trimUnderscore (s : List Char) : List Char :=
  let s1 := match s with | c :: r => if c = '_' then r else s | [] => s
  if s1 ≠ [] ∧ s1.getLast? = some '_' then s1.dropLast else s1

/-- Substring test (JS String.prototype.includes). -/
def containsSub : List Char → List Char → Bool
  | [], n => n.isEmpty
  | c :: t, n => n.isPrefixOf (c :: t) || containsSub t n

/-- First-occurrence literal replacement (JS String.replace with a string
pattern). -/
def replaceFirstL (pat rep : List Char) : List Char → List Char
  | [] => []
  | c :: s =>
    if pat.isPrefixOf (c :: s) ∧ pat ≠ [] then rep ++ (c :: s).drop pat.length
    else c :: replaceFirstL pat rep s

/-- JS String.replace with a non-global regex: splice out the leftmost match
(every use in the scraper replaces by the empty string). -/
def reReplaceFirst (r : Pat) (s : List Char) : List Char :=
  match reFindAux r s none 0 with
  | none => s
  | some (i, cp) =>
    let m := (capGet cp 0).getD []
    s.take i ++ s.drop (i + m.length)

/-- JS String.replace with a start-anchored non-global regex. -/
def reReplaceHead (r : Pat) (s : List Char) : List Char :=
  match mrun r s none with
  | none => s
  | some cp => s.drop ((capGet cp 0).getD []).length

/-! ### Photos (booking.js 874-882) -/

/-- Global photo-URL pattern. -/
def photoRE : Pat :=
  pseq [litsCI "src=\"",
        .grp 1 (pseq [litsCI "https://cf.bstatic.com/xdata/images/hotel/", .plusG neDQ]),
        litsCI "\""]

/-- Photo-collection loop: stop at 15 entries, cut each URL at its query,
decode entities, skip duplicates. -/
def photosLoop : List (List Char) → List String → List String
  | [], acc => acc
  | m :: ms, acc =>
    if acc.length < 15 then
      let url := String.mk (decodeHtmlEntitiesL (m.takeWhile (fun c => c ≠ '?')))
      if acc.contains url then photosLoop ms acc else photosLoop ms (acc ++ [url])
    else acc

/-- Photo list of the detail extractor. -/
def photosOf (html : List Char) : List String :=
  photosLoop ((reExecAll photoRE html).filterMap (fun cp => capGet cp 1)) []

/-! ### Facilities (booking.js 884-928) -/

/-- Grouped-facilities section pattern. -/
def facilityGroupRE : Pat :=
  pseq [litsCI "<div", .starG neGT, litsCI "class=\"", .starG neDQ,
        altL [litsCI "b-facility-group", litsCI "hotel-facilities-group",
              litsCI "fac-group-title"],
        .starG neDQ, litsCI "\"", .starG neGT, litsCI ">", .starL anyc,
        litsCI "<div", .starG neGT, litsCI "class=\"", .starG neDQ,
        altL [litsCI "b-facility-group__title", litsCI "hotel-facilities-group__title",
              litsCI "fac-group-title"],
        .starG neDQ, litsCI "\"", .starG neGT, litsCI ">",
        .grp 1 (.starL anyc), litsCI "</div>", .starL anyc,
        litsCI "<ul", .starG neGT, litsCI ">", .grp 2 (.starL anyc), litsCI "</ul>"]

/-- Facility-item pattern inside a group. -/
def facilityItemRE : Pat :=
  pseq [litsCI "<li", .starG neGT, litsCI ">", .starL anyc,
        litsCI "<span", .starG neGT, litsCI "class=\"", .starG neDQ,
        altL [litsCI "b-facility-item__label", litsCI "hotel-facilities-group__list-item"],
        .starG neDQ, litsCI "\"", .starG neGT, litsCI ">",
        .grp 1 (.starL anyc), litsCI "</span>"]

/-- Inner item loop of one facility group: push new non-empty items to the
group and to the flat list. -/
def facilityItemsStep (st : List String × List String) (cap : List Char) :
    List String × List String :=
  let item := String.mk (decodeHtmlEntitiesL (trimL (stripTags [] cap)))
  if item ≠ "" ∧ ¬ st.1.contains item then
    (st.1 ++ [item], if st.2.contains item then st.2 else st.2 ++ [item])
  else st

/-- JS object property assignment on a key-ordered association list: an
existing key is overwritten in place, a new key is appended. -/
def oset {α : Type} (k : String) (v : α) : List (String × α) → List (String × α)
  | [] => [(k, v)]
  | (k2, v2) :: r => if k = k2 then (k, v) :: r else (k2, v2) :: oset k v r

/-- Outer group loop: grouped map plus flat facility list. -/
def facilitiesState (html : List Char) : List (String × List String) × List String :=
  (reExecAll facilityGroupRE html).foldl
    (fun st cp =>
      let groupName := decodeHtmlEntitiesL (trimL (stripTags [] ((capGet cp 1).getD [])))
      let groupKey := String.mk (trimUnderscore (underscoreRuns (lowerS groupName)))
      let itemsHtml := (capGet cp 2).getD []
      let inner := ((reExecAll facilityItemRE itemsHtml).filterMap
          (fun icp => capGet icp 1)).foldl facilityItemsStep ([], st.2)
      if inner.1 ≠ [] then (oset groupKey inner.1 st.1, inner.2) else (st.1, inner.2))
    ([], [])

/-- Fixed dictionary of well-known facility names used only when no grouped
facility section is found at all. -/
def knownFacilities : List String :=
  ["Free WiFi", "WiFi", "Pool", "Swimming pool", "Gym", "Fitness center",
   "Spa", "Restaurant", "Bar", "Room service", "Parking", "Free parking",
   "Air conditioning", "Airport shuttle", "Beach", "Breakfast", "Pet friendly",
   "24-hour front desk", "Non-smoking rooms", "Family rooms", "Terrace",
   "Garden", "Hot tub", "Sauna", "Laundry", "Kitchen", "Balcony"]

/-- Facility extraction: grouped map and the flat list before slicing. -/
def facilitiesPair (html : List Char) :
    List (String × List String) × List String :=
  let st := facilitiesState html
  let all :=
    if st.1 = [] then
      knownFacilities.foldl
        (fun acc fac =>
          if containsSub html fac.data ∧ ¬ acc.contains fac then acc ++ [fac] else acc)
        st.2
    else st.2
  (st.1, all)

/-- Facilities field: the flat list sliced to 30 entries. -/
def facilitiesOf (html : List Char) : List String := (facilitiesPair html).2.take 30

/-- Grouped-facilities field. -/
def groupedFacilitiesOf (html : List Char) : List (String × List String) :=
  (facilitiesPair html).1

/-! ### Coordinates (booking.js 1034-1043) -/

/-- Signed decimal capture -?digits(.digits-star). -/
def signedNumG (i : Nat) : Pat :=
  .grp i (pseq [optC (fun c => c = '-'), .plusG isDigitC,
                optC (fun c => c = '.'), .starG isDigitC])

/-- Geo-object coordinate pattern. -/
def coordsJsonRE1 : Pat :=
  pseq [litsCI "\"geo\"", .starG isSpaceC, litsCI ":", .starG isSpaceC, litsCI "\x7b",
        .starG (fun c => c.toNat ≠ 125),
        litsCI "\"latitude\"", .starG isSpaceC, litsCI ":", .starG isSpaceC,
        signedNumG 1, .starG (fun c => c.toNat ≠ 125),
        litsCI "\"longitude\"", .starG isSpaceC, litsCI ":", .starG isSpaceC,
        signedNumG 2]

/-- Loose latitude-then-longitude coordinate pattern. -/
def coordsJsonRE2 : Pat :=
  pseq [litsCI "\"latitude\"", .starG isSpaceC, litsCI ":", .starG isSpaceC,
        signedNumG 1, .starL anyc,
        litsCI "\"longitude\"", .starG isSpaceC, litsCI ":", .starG isSpaceC,
        signedNumG 2]

/-- Latitude data attribute pattern. -/
def latAttrRE : Pat := pseq [litsCI "data-lat=\"", signedNumG 1, litsCI "\""]

/-- Longitude data attribute pattern. -/
def lngAttrRE : Pat := pseq [litsCI "data-lng=\"", signedNumG 1, litsCI "\""]

/-- Nullable coordinate pair of the detail record. -/
structure Coordinates where
  latitude : Option Rat
  longitude : Option Rat
deriving DecidableEq, Repr

/-- Coordinate extraction (booking.js 1034-1043).  The earlier JSON-LD geo
pass of the extractor is unconditionally overwritten by this assignment and
never reaches the returned record. -/
def coordinatesOf (html : List Char) : Coordinates :=
  let cj :=
    match reMatch coordsJsonRE1 html with
    | some cp => some cp
    | none => reMatch coordsJsonRE2 html
  { latitude :=
      match cj with
      | some cp => (capGet cp 1).map parseFloatR
      | none => (matchGrp latAttrRE html 1).map parseFloatR,
    longitude :=
      match cj with
      | some cp => (capGet cp 2).map parseFloatR
      | none => (matchGrp lngAttrRE html 1).map parseFloatR }

/-! ### Area info and nearby places (booking.js 1063-1186) -/

/-- categoryToKey (booking.js 1067-1074): lower-case, fold ampersands to
the word and, drop quote characters, collapse [^a-z0-9]+ runs to single
underscores, and remove a leading and trailing underscore. -/
def categoryToKey (cat : List Char) : List Char :=
  trimUnderscore (underscoreRuns (
    (replaceAllL "&".data "and".data
      (replaceAllL "&amp;".data "and".data (lowerS cat))).filter
      (fun c => ¬ (c.toNat = 39 ∨ c = '"'))))

/-- Scoping pattern on an explicit property-surroundings class. -/
def surroundRE1 : Pat :=
  pseq [litsCI "class=\"", .starG neDQ, litsCI "property-surroundings", .starG neDQ,
        litsCI "\"", .starG neGT, litsCI ">", .grp 1 (.starL anyc),
        litsCI "</section>"]

/-- Scoping pattern on the section heading text. -/
def surroundRE2 : Pat :=
  pseq [litsCI ">", .alt (litsCI "Area info") (litsCI "Property surroundings"),
        litsCI "</h2>", .grp 1 (.starL anyc), litsCI "</section>"]

/-- Discovery pattern: a short heading-like text, its closing tag, at most
800 characters, then a block of listitem elements up to a closing
section, div or ul. -/
def discoveryRE : Pat :=
  pseq [litsCI ">", .starG isSpaceC, .grp 1 (.repG 3 40 neLT), .starG isSpaceC,
        litsCI "</", .plusG neGT, litsCI ">", .repL 0 800 anyc,
        .grp 2 (pseq [litsCI "<", .plusG neGT, litsCI "role=\"listitem\"",
                      .starG neGT, litsCI ">", .starL anyc]),
        litsCI "</", altL [litsCI "section", litsCI "div", litsCI "ul"]]

/-- Item pattern of the discovery pass. -/
def itemRE : Pat :=
  pseq [litsCI "<", .plusG neGT, litsCI "role=\"listitem\"", .starG neGT, litsCI ">",
        .grp 1 (.starL anyc), litsCI "</", .plusG neGT, litsCI ">"]

/-- Distance pattern with a trailing word boundary. -/
def distRE : Pat :=
  pseq [.grp 1 (pseq [.plusG isDigitC,
                      .alt (pseq [litsCI ".", .plusG isDigitC]) .eps,
                      .starG isSpaceC,
                      altL [litsCI "km", litsCI "m", litsCI "mi"]]),
        .wb]

/-- Bullet characters of the name-cleaning steps. -/
def bulletC (c : Char) : Bool := c.toNat = 8226 || c.toNat = 183

/-- Separator class of the name-cleaning steps: bullets, whitespace, dash. -/
def sepC (c : Char) : Bool := bulletC c || isSpaceC c || c = '-'

/-- Leading-bullet cleanup pattern (start anchored). -/
def bulletRE : Pat := pseq [.one bulletC, .starG isSpaceC]

/-- Known category-word prefix cleanup pattern (start anchored). -/
def catPrefixRE : Pat :=
  pseq [altL [litsCI "Restaurant", litsCI "Cafe", litsCI "Subway", litsCI "Train",
              litsCI "Airport", litsCI "Metro", litsCI "Museum", litsCI "Park",
              litsCI "Bank", litsCI "Pharmacy", litsCI "Market", litsCI "Tram",
              litsCI "Bus", litsCI "Square"],
        .starG isSpaceC, .one sepC, .starG isSpaceC]

/-- Trailing-separator cleanup pattern (end anchored). -/
def trailSepRE : Pat := pseq [.starG isSpaceC, .one sepC, .starG isSpaceC, .eos]

/-- Key blacklist of the discovery pass. -/
def keyBlacklistRE : Pat :=
  altL [litsCI "area_info", litsCI "show_map", litsCI "availability",
        litsCI "reviews", litsCI "check", litsCI "property_surroundings"]

/-- Distance-shaped key pattern, anchored at both ends. -/
def distKeyRE : Pat :=
  pseq [.plusG isDigitC,
        .alt (pseq [lits "_", .plusG isDigitC]) .eps,
        .alt (altL [lits "_km", lits "_m", lits "_mi"]) .eps,
        .eos]

/-- One area_info item: display name, optional distance, optional airport
code (airports carry a code field, other items do not). -/
structure AreaItem where
  name : String
  distance : Option String
  code : Option String := none
deriving DecidableEq, Repr

/-- Item loop of the discovery pass (booking.js 1109-1142). -/
def discoveryItems (itemsHtml : List Char) : List AreaItem :=
  (reExecAll itemRE itemsHtml).foldl
    (fun items cp =>
      let itemContent := (capGet cp 1).getD []
      let fullText := trimL (collapseWs 2 (stripTags " ".data itemContent))
      if fullText.length < 2 then items
      else
        let dm := reMatch distRE fullText
        let distance := (dm.bind (fun c => capGet c 1)).map
          (fun v => String.mk (trimL v))
        let name0 :=
          match distance, dm.bind (fun c => capGet c 0) with
          | some _, some m0 => trimL (replaceFirstL m0 [] fullText)
          | _, _ => fullText
        let name1 := reReplaceHead bulletRE name0
        let name2 := reReplaceHead catPrefixRE name1
        let name3 := trimL (reReplaceFirst trailSepRE name2)
        if name3 ≠ [] ∧ 1 < name3.length ∧ ¬ containsSub name3 "...".data then
          if items.any (fun it => it.name = String.mk name3) then items
          else items ++ [{ name := String.mk name3, distance := distance }]
        else items)
    []

/-- Heading/list discovery pass (booking.js 1093-1144). -/
def discoveryPass (scopeHtml : List Char) : List (String × List AreaItem) :=
  (reExecAll discoveryRE scopeHtml).foldl
    (fun areaInfo cp =>
      let categoryName := trimL (stripTags [] ((capGet cp 1).getD []))
      let categoryKey := categoryToKey categoryName
      if categoryKey = [] ∨ categoryKey.length < 2 ∨ reTest keyBlacklistRE categoryKey then
        areaInfo
      else if (mrun distKeyRE categoryKey none).isSome then areaInfo
      else if containsSub categoryName "?".data ∨ containsSub categoryName "\x7d".data ∨
              50 < categoryName.length then areaInfo
      else
        let items := discoveryItems ((capGet cp 2).getD [])
        if items ≠ [] then oset (String.mk categoryKey) items areaInfo else areaInfo)
    []

/-- Labels of the looser fallback pass. -/
def fallbackLabels : List String :=
  ["What" ++ sQuote ++ "s nearby", "Top attractions", "Closest Airports",
   "Public transit", "Restaurants & cafes", "Natural beauty"]

/-- Fallback heading pattern built around one label. -/
def fbPattern (label : String) : Pat :=
  pseq [litsCI ">", .starG isSpaceC, .lit true label.data, .starG isSpaceC, litsCI "<",
        .repL 0 500 anyc,
        .grp 1 (pseq [litsCI "<", .plusG neGT, litsCI "role=\"listitem\"", .starL anyc]),
        litsCI "</", altL [litsCI "section", litsCI "div", litsCI "ul"]]

/-- Item pattern of the fallback pass. -/
def fbItemRE : Pat :=
  pseq [litsCI "role=\"listitem\"", .starG neGT, litsCI ">", .grp 1 (.starL anyc),
        litsCI "</", altL [litsCI "li", litsCI "div"]]

/-- Distance pattern of the fallback pass (no word boundary). -/
def fbDistRE : Pat :=
  .grp 1 (pseq [.plusG isDigitC, optC (fun c => c = '.'), .starG isDigitC,
                .starG isSpaceC, altL [litsCI "km", litsCI "m", litsCI "mi"]])

/-- Looser heading-by-heading fallback (booking.js 1147-1167), attempted
only when discovery yielded fewer than two categories. -/
def fallbackPass (scopeHtml : List Char) (ai0 : List (String × List AreaItem)) :
    List (String × List AreaItem) :=
  fallbackLabels.foldl
    (fun ai label =>
      let labelKey := String.mk (categoryToKey label.data)
      if (ai.lookup labelKey).isSome then ai
      else
        match reMatch (fbPattern label) scopeHtml with
        | none => ai
        | some cp =>
          let its := (reExecAll fbItemRE ((capGet cp 1).getD [])).foldl
            (fun its icp =>
              let text := trimL (stripTags " ".data ((capGet icp 1).getD []))
              if text = [] then its
              else
                let d := (reMatch fbDistRE text).bind (fun c => capGet c 1)
                its ++ [{ name := String.mk (trimL (replaceFirstL (d.getD []) [] text)),
                          distance := d.map String.mk, code := none }])
            []
          if its ≠ [] then oset labelKey its ai else ai)
    ai0

/-- ASCII letter class ([A-Z] under the case-insensitive flag). -/
def isLetterAZ (c : Char) : Bool :=
  (65 ≤ c.toNat && c.toNat ≤ 90) || (97 ≤ c.toNat && c.toNat ≤ 122)

/-- Structured airport title/subtitle pattern. -/
def airportRE : Pat :=
  pseq [litsCI "\"title\":\"",
        .grp 1 (pseq [.starG neDQ, litsCI "Airport", .starG neDQ]),
        litsCI "\",\"subtitle\":\"(", .grp 2 (.plusG isLetterAZ), litsCI ")",
        .starG isSpaceC,
        .grp 3 (pseq [.plusG isDigitC, optC (fun c => c = '.'), .starG isDigitC]),
        .starG isSpaceC, .grp 4 (.alt (litsCI "km") (litsCI "mi")), litsCI "\""]

/-- Airport supplement loop (booking.js 1169-1180). -/
def airportsOf (html : List Char) : List AreaItem :=
  (reExecAll airportRE html).foldl
    (fun airports cp =>
      let name := String.mk (decodeHtmlEntitiesL (trimL ((capGet cp 1).getD [])))
      let code := String.mk ((capGet cp 2).getD [])
      let distance := String.mk ((capGet cp 3).getD []) ++ " " ++
        String.mk ((capGet cp 4).getD [])
      if airports.any (fun a => a.name = name) then airports
      else airports ++ [{ name := name, distance := some distance, code := some code }])
    []

/-- Full area_info computation (booking.js 1063-1186): scope to the
surroundings section when present, run discovery, run the fallback pass
when fewer than two categories were found, then merge airports. -/
def areaInfoOf (html : List Char) : List (String × List AreaItem) :=
  let scopeHtml :=
    match matchGrp surroundRE1 html 1 with
    | some f => f
    | none =>
      match matchGrp surroundRE2 html 1 with
      | some f => f
      | none => html
  let ai := discoveryPass scopeHtml
  let ai := if ai.length < 2 then fallbackPass scopeHtml ai else ai
  let airports := airportsOf html
  if airports ≠ [] ∧ (ai.lookup "closest_airports").isNone then
    oset "closest_airports" airports ai
  else ai

/-- Claim-relevant fields of the record returned by
extractHotelDetailsFromHTML.  The remaining fields of the source record
(name, address, rating, rooms, restaurants, times, languages, property
info) are independent per-field extractions that no verified claim
mentions and are not reproduced in the embedding. -/
structure HotelDetails where
  photos : List String
  facilities : List String
  grouped_facilities : List (String × List String)
  coordinates : Coordinates
  area_info : List (String × List AreaItem)
deriving DecidableEq, Repr

/-- extractHotelDetailsFromHTML (booking.js 725-1315), restricted to the
fields above. -/
def extractHotelDetailsFromHTML (html : List Char) : HotelDetails :=
  { photos := photosOf html
    facilities := facilitiesOf html
    grouped_facilities := groupedFacilitiesOf html
    coordinates := coordinatesOf html
    area_info := areaInfoOf html }

/-! ## Backend orchestration (scrapeBookingHotels, booking.js 635-720) -/

/-- JSON-like diagnostic values carried in debugInfo records. -/
inductive DVal : Type where
  | s (v : String)
  | n (v : Nat)
  | b (v : Bool)
  | nul
  | obj (l : List (String × DVal))
deriving Repr

/-- Diagnostic record: insertion-ordered JS object. -/
abbrev Debug := List (String × DVal)

/-- JS object spread: fold the right-hand entries into the left record,
overwriting keys in place and appending new ones. -/
def dmerge (a b : Debug) : Debug :=
  b.foldl (fun acc kv => oset kv.1 kv.2 acc) a

/-- Backends appearing in the invocation trace. -/
inductive Backend : Type where
  | zyte
  | puppeteer
deriving DecidableEq, Repr

/-- Observable response of one Zyte API call (the fetch in scrapeWithZyte):
an HTTP-level failure or a JSON body carrying the final URL and rendered
HTML. -/
inductive ZyteApi : Type where
  | httpErr (status : Nat) (text : String)
  | okData (url : String) (html : String)
deriving Repr

/-- Outcome of one scrapeWithZyte call as its caller observes it: a thrown
error, the bare-array return on the search-error redirect, or the
hotels/debug pair. -/
inductive ZyteRet : Type where
  | thrown (msg : String)
  | redirect
  | ok (hotels : List HotelSummary) (debug : Debug)
deriving Repr

/-- scrapeWithZyte (booking.js 73-127): an HTTP error throws; a final URL
indicating the search-error redirect returns the bare array; otherwise the
rendered HTML is run through the listing extractor and paired with the
url/contentLength/title diagnostic record built at lines 120-124. -/
def scrapeWithZyte (api : ZyteApi) : ZyteRet :=
  match api with
  | .httpErr st txt => .thrown ("Zyte API error: " ++ toString st ++ " - " ++ txt)
  | .okData url html =>
    if url ≠ "" ∧ containsSub url.data "index.html".data ∧
        containsSub url.data "errorc_searchstring".data then
      .redirect
    else
      .ok (extractHotelsFromHTML html.data)
        [("url", .s url), ("contentLength", .n html.length), ("title", .nul)]

/-- Outcome of one scrapeWithPuppeteer call as its caller observes it: a
thrown error (browser failure) or the hotels/debug pair assembled from the
rendered page.  The browser session itself is an external capability, so
its outcome is an input of the orchestrator model. -/
inductive PupRet : Type where
  | thrown (msg : String)
  | ok (hotels : List HotelSummary) (debug : Debug)
deriving Repr

/-- Behavior of the external backends during one request.  The Zyte API is
consulted at most once; scrapeWithPuppeteer can run up to twice, because on
the Zyte-first path a throw out of the first fallback call (booking.js 661)
lands in the catch at lines 665-675, which calls scrapeWithPuppeteer again
(line 669).  puppeteer is the outcome of the first Puppeteer invocation of
the request, puppeteer2 the outcome of that possible second invocation. -/
structure Behavior where
  zyte : ZyteApi
  puppeteer : PupRet
  puppeteer2 : PupRet

/-- Environment configuration read by scrapeBookingHotels from process.env. -/
structure Env where
  isServerless : Bool
  zyteApiKey : Option String
  browserlessToken : Option String
  useZyteEnvFlag : Bool
deriving DecidableEq, Repr

/-- Value returned to the caller of scrapeBookingHotels. -/
structure ScrapeResult where
  hotels : List HotelSummary
  debugInfo : Debug
deriving Repr

/-- Error message thrown when no backend is configured in a serverless
environment (booking.js 701-704). -/
def noBackendMsg : String :=
  "No scraping service configured for serverless environment. Please set ZYTE_API_KEY or BROWSERLESS_TOKEN environment variable in Appwrite Console."

/-- Message of the TypeError raised when the bare-array redirect return of
scrapeWithZyte is destructured (result.hotels is undefined and the length
access on line 659 throws); the exact text is a JS-runtime artifact. -/
def typeErrMsg : String :=
  "Cannot read properties of undefined (reading " ++ sQuote ++ "length" ++ sQuote ++ ")"

/-- scrapeBookingHotels (booking.js 635-720) with the backend-invocation
trace made explicit.  On the Zyte-first path the inner catch (lines
665-675) receives every throw of the try block at 653-664: a Zyte HTTP
failure, the TypeError raised at line 659 when the bare-array redirect
return is destructured, and a throw out of the zero-hotel Puppeteer
fallback at line 661; outside serverless it then calls scrapeWithPuppeteer
once more, so up to three backend calls can occur, while in serverless it
rethrows with the fixed message prefix.  The stack property of a caught
error is a runtime artifact and is modelled as null. -/
def scrapeBookingHotels (env : Env) (today : Nat) (location : String)
    (options : SearchOptions) (beh : Behavior) : ScrapeResult × List Backend :=
  let searchURL := buildSearchURL today location options
  let useZyte := options.useZyte || (truthyS env.zyteApiKey && env.useZyteEnvFlag)
  let errResult := fun (msg : String) (tr : List Backend) =>
    (({ hotels := [],
        debugInfo := [("error", .s msg), ("stack", .nul), ("url", .s searchURL)] }
        : ScrapeResult), tr)
  let finish := fun (hotels : List HotelSummary) (debug : Debug) (tr : List Backend) =>
    (({ hotels := hotels,
        debugInfo := dmerge
          [("method", .s (if useZyte then "zyte" else "puppeteer")),
           ("url", .s searchURL), ("count", .n hotels.length)] debug }
        : ScrapeResult), tr)
  if useZyte && truthyS env.zyteApiKey then
    match scrapeWithZyte beh.zyte with
    | .ok h d =>
      if h.isEmpty && !env.isServerless then
        match beh.puppeteer with
        | .ok h2 d2 => finish h2 d2 [.zyte, .puppeteer]
        | .thrown e2 =>
          -- the throw lands in the catch at 665-675, which re-checks
          -- isServerless and calls scrapeWithPuppeteer a second time
          if !env.isServerless then
            match beh.puppeteer2 with
            | .ok h3 d3 => finish h3 d3 [.zyte, .puppeteer, .puppeteer]
            | .thrown e3 => errResult e3 [.zyte, .puppeteer, .puppeteer]
          else
            errResult ("Zyte API failed and no fallback available in serverless: " ++ e2)
              [.zyte, .puppeteer]
      else finish h d [.zyte]
    | .redirect =>
      -- bare-array return: result.hotels is undefined, the length access
      -- at line 659 raises a TypeError caught at 665-675
      if !env.isServerless then
        match beh.puppeteer with
        | .ok h2 d2 => finish h2 d2 [.zyte, .puppeteer]
        | .thrown e2 => errResult e2 [.zyte, .puppeteer]
      else
        errResult ("Zyte API failed and no fallback available in serverless: " ++ typeErrMsg)
          [.zyte]
    | .thrown e =>
      if !env.isServerless then
        match beh.puppeteer with
        | .ok h2 d2 => finish h2 d2 [.zyte, .puppeteer]
        | .thrown e2 => errResult e2 [.zyte, .puppeteer]
      else
        errResult ("Zyte API failed and no fallback available in serverless: " ++ e) [.zyte]
  else if !env.isServerless || truthyS env.browserlessToken then
    match beh.puppeteer with
    | .thrown e => errResult e [.puppeteer]
    | .ok h d =>
      if h.isEmpty && truthyS env.zyteApiKey && !options.noRetry then
        match scrapeWithZyte beh.zyte with
        | .ok h2 d2 =>
          if !h2.isEmpty then
            finish h2
              (dmerge d2 [("was_fallback", .b true), ("original_debug", .obj d)])
              [.puppeteer, .zyte]
          else finish h d [.puppeteer, .zyte]
        | .redirect => finish h d [.puppeteer, .zyte]
        | .thrown _ => finish h d [.puppeteer, .zyte]
      else finish h d [.puppeteer]
  else errResult noBackendMsg []

/-! ## General lemmas -/

/-- Fold invariant preservation. -/
theorem foldl_inv {α σ : Type} (P : σ → Prop) (f : σ → α → σ)
    (hf : ∀ s a, P s → P (f s a)) : ∀ (l : List α) (s : σ), P s → P (l.foldl f s)
  | [], _, h => h
  | a :: l, s, h => foldl_inv P f hf l (f s a) (hf s a h)

/-- Membership after a JS-style object assignment. -/
theorem mem_oset {α : Type} {x : String × α} {k : String} {v : α} :
    ∀ {l : List (String × α)}, x ∈ oset k v l → x = (k, v) ∨ x ∈ l := by
  intro l
  induction l with
  | nil => intro h; simpa [oset] using h
  | cons kv r ih =>
    intro h
    by_cases hk : k = kv.1
    · simp only [oset] at h
      rcases kv with ⟨k2, v2⟩
      simp only at hk
      rw [if_pos hk] at h
      rcases List.mem_cons.mp h with h | h
      · exact Or.inl h
      · exact Or.inr (List.mem_cons_of_mem _ h)
    · rcases kv with ⟨k2, v2⟩
      simp only at hk
      simp only [oset, if_neg hk] at h
      rcases List.mem_cons.mp h with h | h
      · exact Or.inr (List.mem_cons.mpr (Or.inl h))
      · rcases ih h with h2 | h2
        · exact Or.inl h2
        · exact Or.inr (List.mem_cons_of_mem _ h2)

/-! ## C1: checkout defaulting in buildSearchURL -/

/-- C1 counterexample: when checkin is supplied and checkout absent, the
checkout parameter is computed from the current date, not from the supplied
checkin.  At current date 2025-03-10 (day 20157 of the epoch) and checkin
2025-06-01 the URL carries checkout 2025-03-13, not 2025-06-03 as the claim
(checkin plus 2 days) requires. -/
theorem buildSearchURL_checkout_from_today_cex :
    qGet (buildSearchParams 20157 "Paris" { checkin := some "2025-06-01" }) "checkout"
        = some "2025-03-13" ∧
    ("2025-03-13" : String) ≠ "2025-06-03" := by
  exact ⟨rfl, by decide⟩

/-- C1 amended: a missing checkout always defaults to the current date plus
3 days (tomorrow plus 2 days), regardless of any supplied checkin; with
empty options, checkin is tomorrow, checkout is checkin plus 2 days, and
the group parameters take their defaults 2, 1, 0. -/
theorem buildSearchURL_checkout_default (today : Nat) (location : String)
    (options : SearchOptions) (h : truthyS options.checkout = false) :
    qGet (buildSearchParams today location options) "checkout"
        = some (formatDate (today + 3)) ∧
    qGet (buildSearchParams today "Paris" {}) "checkin" = some (formatDate (today + 1)) ∧
    qGet (buildSearchParams today "Paris" {}) "checkout" = some (formatDate (today + 1 + 2)) ∧
    qGet (buildSearchParams today "Paris" {}) "group_adults" = some "2" ∧
    qGet (buildSearchParams today "Paris" {}) "no_rooms" = some "1" ∧
    qGet (buildSearchParams today "Paris" {}) "group_children" = some "0" := by
  refine ⟨?_, rfl, rfl, rfl, rfl, rfl⟩
  cases hco : options.checkout with
  | none => simp [buildSearchParams, qGet, jsOrS, hco, List.find?]
  | some s =>
    have hs : s = "" := by
      by_contra hne
      simp [truthyS, hco, hne] at h
    subst hs
    simp [buildSearchParams, qGet, jsOrS, hco, List.find?]

/-- C1 amended witness at a concrete input. -/
theorem buildSearchURL_checkout_default_witness :
    qGet (buildSearchParams 20157 "Paris" { checkin := some "2025-06-01" }) "checkout"
        = some (formatDate (20157 + 3)) ∧
    qGet (buildSearchParams 20157 "Paris" {}) "checkin" = some (formatDate (20157 + 1)) ∧
    qGet (buildSearchParams 20157 "Paris" {}) "checkout" = some (formatDate (20157 + 1 + 2)) ∧
    qGet (buildSearchParams 20157 "Paris" {}) "group_adults" = some "2" ∧
    qGet (buildSearchParams 20157 "Paris" {}) "no_rooms" = some "1" ∧
    qGet (buildSearchParams 20157 "Paris" {}) "group_children" = some "0" :=
  buildSearchURL_checkout_default 20157 "Paris" { checkin := some "2025-06-01" } rfl

/-! ## C6: determinism of buildSearchURL -/

/-- C6 counterexample: with empty options the produced URL depends on the
date of the call, so two calls with equal inputs made on different days
yield different URLs. -/
theorem buildSearchURL_time_dependent_cex :
    buildSearchURL 20157 "Paris" {} ≠ buildSearchURL 20158 "Paris" {} := by
  decide

/-- C6 amended: buildSearchURL is a pure function of its arguments and the
current date; two calls with equal location and equal options yield
byte-identical URLs whenever both checkin and checkout are supplied
(non-empty), whatever the dates of the calls. -/
theorem buildSearchURL_deterministic (t1 t2 : Nat) (location : String)
    (options : SearchOptions) (hci : truthyS options.checkin = true)
    (hco : truthyS options.checkout = true) :
    buildSearchURL t1 location options = buildSearchURL t2 location options := by
  cases hci2 : options.checkin with
  | none => simp [truthyS, hci2] at hci
  | some ci =>
    cases hco2 : options.checkout with
    | none => simp [truthyS, hco2] at hco
    | some co =>
      have hci3 : ci ≠ "" := by
        by_contra he
        simp [truthyS, hci2, he] at hci
      have hco3 : co ≠ "" := by
        by_contra he
        simp [truthyS, hco2, he] at hco
      simp [buildSearchURL, buildSearchParams, jsOrS, hci2, hco2, hci3, hco3]

/-- C6 amended witness at concrete inputs and two different call dates. -/
theorem buildSearchURL_deterministic_witness :
    buildSearchURL 20157 "Paris"
        { checkin := some "2025-12-20", checkout := some "2025-12-22" }
      = buildSearchURL 20300 "Paris"
        { checkin := some "2025-12-20", checkout := some "2025-12-22" } :=
  buildSearchURL_deterministic 20157 20300 "Paris"
    { checkin := some "2025-12-20", checkout := some "2025-12-22" } rfl rfl

/-! ## C3: URL canonicalization -/

/-- Keys of the essential-parameter filter are the essential keys present in
the query, in the fixed essential order. -/
theorem cleanParams_keys_aux (ps : List String) (q : List (String × String)) :
    (ps.filterMap (fun p => (qGet q p).map (fun v => (p, v)))).map Prod.fst
      = ps.filter (fun p => (qGet q p).isSome) := by
  induction ps with
  | nil => rfl
  | cons p ps ih => cases h : qGet q p <;> simp [h, ih]

/-- Every entry of the essential-parameter filter carries the first value
bound to its key in the query, and its key is essential. -/
theorem cleanParams_mem_aux (ps : List String) (q : List (String × String))
    (p : String) (v : String)
    (hm : (p, v) ∈ ps.filterMap (fun p2 => (qGet q p2).map (fun v2 => (p2, v2)))) :
    qGet q p = some v ∧ p ∈ ps := by
  induction ps with
  | nil => simp at hm
  | cons p2 ps ih =>
    cases h : qGet q p2 with
    | none =>
      rw [List.filterMap_cons, h] at hm
      rcases ih hm with ⟨h1, h2⟩
      exact ⟨h1, List.mem_cons_of_mem _ h2⟩
    | some v2 =>
      rw [List.filterMap_cons, h] at hm
      rcases List.mem_cons.mp hm with h2 | h2
      · rcases Prod.mk.injEq .. ▸ h2 with ⟨rfl, rfl⟩
        exact ⟨h, List.mem_cons_self _ _⟩
      · rcases ih h2 with ⟨h3, h4⟩
        exact ⟨h3, List.mem_cons_of_mem _ h4⟩

/-- Spec example URL of the canonicalization property. -/
def c3ExampleUrl : String :=
  "https://site/hotel/xx/name.html?checkin=2025-01-01&checkout=2025-01-03&group_adults=2&no_rooms=1&group_children=0&aid=12345&label=xyz"

/-- C3: on every URL the parser accepts, cleanHotelUrl decodes HTML
entities, keeps the origin and path, and retains exactly the five essential
booking parameters that were present, in the fixed stable order, each with
its first-bound original value, dropping everything else; on the spec
example the aid and label parameters are removed and the five essential
parameters survive in order. -/
theorem cleanHotelUrl_canonicalizes (url : String) (u : UrlParts)
    (hne : url ≠ "") (hp : parseURL (decodeHtmlEntities url) = some u) :
    cleanHotelUrl url =
      u.origin ++ u.pathname ++
        (if cleanParams u.query = [] then ""
         else "?" ++ serializeParams (cleanParams u.query)) ∧
    (cleanParams u.query).map Prod.fst
      = essentialParams.filter (fun p => (qGet u.query p).isSome) ∧
    (∀ p v, (p, v) ∈ cleanParams u.query → qGet u.query p = some v ∧ p ∈ essentialParams) ∧
    cleanHotelUrl c3ExampleUrl =
      "https://site/hotel/xx/name.html?checkin=2025-01-01&checkout=2025-01-03&group_adults=2&no_rooms=1&group_children=0" := by
  refine ⟨?_, cleanParams_keys_aux essentialParams u.query,
    fun p v hm => cleanParams_mem_aux essentialParams u.query p v hm, by decide⟩
  simp [cleanHotelUrl, hne, hp]

/-- Parsed view of the spec example URL. -/
def c3ExampleParts : UrlParts :=
  { origin := "https://site", pathname := "/hotel/xx/name.html",
    query := [("checkin", "2025-01-01"), ("checkout", "2025-01-03"),
              ("group_adults", "2"), ("no_rooms", "1"), ("group_children", "0"),
              ("aid", "12345"), ("label", "xyz")] }

/-- C3 witness at the spec example URL and its parse. -/
theorem cleanHotelUrl_canonicalizes_witness :
    cleanHotelUrl c3ExampleUrl =
      c3ExampleParts.origin ++ c3ExampleParts.pathname ++
        (if cleanParams c3ExampleParts.query = [] then ""
         else "?" ++ serializeParams (cleanParams c3ExampleParts.query)) :=
  (cleanHotelUrl_canonicalizes c3ExampleUrl c3ExampleParts (by decide) (by decide)).1

/-! ## C5: summary filtering drops nameless cards -/

/-- Fragment with two cards, one named and one nameless. -/
def c5Fragment : String :=
  "<div data-testid=\"property-card\"><span data-testid=\"title\" >Hotel A</span></div><div data-testid=\"property-card\"><span>no name here</span></div>"

/-- The single record extracted from the named card of the fragment. -/
def c5Record : HotelSummary :=
  { name := "Hotel A", link := none, picture_url := none, rating := none,
    reviews_count := none, location := none, price_per_night := none,
    currency := none }

set_option maxRecDepth 100000 in
/-- C5: every record emitted by the listing extractor has a non-empty name
(a card without a truthy name is dropped silently), and the two-card
fragment yields exactly the one named record. -/
theorem extractHotels_name_filter :
    (∀ html h, h ∈ extractHotelsFromHTML html → h.name ≠ "") ∧
    extractHotelsFromHTML c5Fragment.data = [c5Record] := by
  constructor
  · intro html h hmem
    rcases List.mem_filterMap.mp hmem with ⟨card, _, hpc⟩
    rcases hname : matchGrp nameRE card 1 with _ | nm
    · simp [processCard, hname] at hpc
    · simp only [processCard, hname, Option.map_some'] at hpc
      by_cases hz : decodeHtmlEntitiesL (trimL nm) = []
      · rw [if_neg (fun hc => hc hz)] at hpc
        exact Option.noConfusion hpc
      · rw [if_pos hz] at hpc
        have hh := Option.some.inj hpc
        intro hcon
        apply hz
        have h2 := congrArg String.data hcon
        rw [← hh] at h2
        simpa using h2
  · decide

/-- C5 witness: the general name property applied to the record extracted
from the fragment. -/
theorem extractHotels_name_filter_witness :
    c5Record.name ≠ "" :=
  extractHotels_name_filter.1 c5Fragment.data c5Record
    (by rw [extractHotels_name_filter.2]; exact List.mem_singleton.mpr rfl)

/-! ## C10: the in-page script emits at most 25 records -/

/-- Cards at index 25 and beyond are skipped by the evaluated script. -/
theorem evaluateCard_none_of_ge (i : Nat) (c : DomCard) (h : 25 ≤ i) :
    evaluateCard i c = none := by
  simp [evaluateCard, h]

/-- Enumerations starting at index 25 contribute nothing. -/
theorem enumFrom_evaluate_nil :
    ∀ (b : List DomCard) (k : Nat), 25 ≤ k →
      (List.enumFrom k b).filterMap (fun ic => evaluateCard ic.1 ic.2) = [] := by
  intro b
  induction b with
  | nil => intro k _; rfl
  | cons c b ih =>
    intro k hk
    simp only [List.enumFrom, List.filterMap_cons,
      evaluateCard_none_of_ge k c hk]
    exact ih (k + 1) (Nat.le_succ_of_le hk)

/-- The evaluated script only sees the first 25 cards. -/
theorem evaluateCards_take (cards : List DomCard) :
    evaluateCards cards = evaluateCards (cards.take 25) := by
  rcases le_or_lt cards.length 25 with h | h
  · rw [List.take_of_length_le h]
  · unfold evaluateCards
    conv_lhs => rw [← List.take_append_drop 25 cards]
    rw [List.enum_append, List.filterMap_append]
    have hlen : (cards.take 25).length = 25 := by
      rw [List.length_take]
      exact Nat.min_eq_left (Nat.le_of_lt h)
    rw [hlen, enumFrom_evaluate_nil _ 25 (Nat.le_refl 25), List.append_nil]

/-- C10: the browser-driven listing path emits at most 25 hotel records per
page, and cards at index 25 and beyond never influence the output. -/
theorem puppeteerHotels_limit :
    (∀ cards, puppeteerHotels cards = puppeteerHotels (cards.take 25)) ∧
    (∀ cards, (puppeteerHotels cards).length ≤ 25) := by
  constructor
  · intro cards
    unfold puppeteerHotels
    rw [evaluateCards_take]
  · intro cards
    unfold puppeteerHotels
    rw [List.length_map, evaluateCards_take]
    calc (evaluateCards (cards.take 25)).length
        ≤ (cards.take 25).enum.length := List.length_filterMap_le _ _
      _ = (cards.take 25).length := List.enum_length
      _ ≤ 25 := by rw [List.length_take]; exact Nat.min_le_left _ _

/-! ## C9: photos and facilities are deduplicated and bounded -/

/-- Appending a fresh element preserves distinctness. -/
theorem nodup_snoc {α : Type} [DecidableEq α] {l : List α} {a : α}
    (h : l.Nodup) (hm : a ∉ l) : (l ++ [a]).Nodup := by
  simp [List.nodup_append, h, hm]

/-- The photo loop preserves distinctness of its accumulator. -/
theorem photosLoop_nodup :
    ∀ (ms : List (List Char)) (acc : List String), acc.Nodup →
      (photosLoop ms acc).Nodup := by
  intro ms
  induction ms with
  | nil => intro acc h; exact h
  | cons m ms ih =>
    intro acc h
    simp only [photosLoop]
    split
    · split
      · exact ih acc h
      · rename_i hle hcon
        refine ih _ (nodup_snoc h ?_)
        intro hm
        exact hcon (List.elem_eq_true_of_mem hm)
    · exact h

/-- The photo loop never grows its accumulator beyond 15. -/
theorem photosLoop_len :
    ∀ (ms : List (List Char)) (acc : List String), acc.length ≤ 15 →
      (photosLoop ms acc).length ≤ 15 := by
  intro ms
  induction ms with
  | nil => intro acc h; exact h
  | cons m ms ih =>
    intro acc h
    simp only [photosLoop]
    split
    · split
      · exact ih acc h
      · rename_i hle _
        refine ih _ ?_
        simp only [List.length_append, List.length_singleton]
        omega
    · exact h

/-- The facility item step preserves distinctness of the flat list. -/
theorem facilityItemsStep_nodup (st : List String × List String)
    (cap : List Char) (h : st.2.Nodup) : (facilityItemsStep st cap).2.Nodup := by
  simp only [facilityItemsStep]
  split
  · dsimp only
    split
    · exact h
    · rename_i hnm
      refine nodup_snoc h ?_
      intro hm
      exact hnm (List.elem_eq_true_of_mem hm)
  · exact h

/-- The facility-group loop preserves distinctness of the flat list. -/
theorem facilitiesState_nodup (html : List Char) :
    (facilitiesState html).2.Nodup := by
  unfold facilitiesState
  refine foldl_inv
    (fun st : List (String × List String) × List String => st.2.Nodup) _ ?_ _ _
    List.nodup_nil
  intro st cp h
  have hinner : (((reExecAll facilityItemRE ((capGet cp 2).getD [])).filterMap
      (fun icp => capGet icp 1)).foldl facilityItemsStep ([], st.2)).2.Nodup :=
    foldl_inv (fun st2 : List String × List String => st2.2.Nodup) facilityItemsStep
      (fun s a hs => facilityItemsStep_nodup s a hs) _ _ h
  simp only [ne_eq]
  split <;> exact hinner

/-- The known-facility fallback preserves distinctness. -/
theorem facilitiesPair_nodup (html : List Char) :
    (facilitiesPair html).2.Nodup := by
  simp only [facilitiesPair, ne_eq]
  split
  · refine foldl_inv (fun acc : List String => acc.Nodup) _ ?_ _ _
      (facilitiesState_nodup html)
    intro acc fac h
    split
    · rename_i hcond
      refine nodup_snoc h ?_
      intro hm
      exact hcond.2 (List.elem_eq_true_of_mem hm)
    · exact h
  · exact facilitiesState_nodup html

/-- C9: the photo list of the detail record is duplicate-free with at most 15
entries and its facility list is duplicate-free with at most 30 entries,
for every input page. -/
theorem detail_photos_facilities_bounds (html : List Char) :
    (extractHotelDetailsFromHTML html).photos.Nodup ∧
    (extractHotelDetailsFromHTML html).photos.length ≤ 15 ∧
    (extractHotelDetailsFromHTML html).facilities.Nodup ∧
    (extractHotelDetailsFromHTML html).facilities.length ≤ 30 := by
  refine ⟨photosLoop_nodup _ _ List.nodup_nil,
          photosLoop_len _ _ (by simp),
          ?_, ?_⟩
  · exact List.Nodup.sublist (List.take_sublist _ _) (facilitiesPair_nodup html)
  · exact List.length_take_le _ _

/-! ## C7: no backend configured in a serverless environment -/

/-- C7: in a serverless environment with neither a Zyte key nor a
Browserless token configured, the request fails without consulting any
backend: the result is independent of all backend behavior, no backend
appears in the invocation trace, the hotel list is empty, and the error
surfaced in debugInfo names the two missing configuration variables. -/
theorem serverless_no_backend (env : Env) (today : Nat) (location : String)
    (options : SearchOptions) (beh : Behavior)
    (h1 : env.isServerless = true) (h2 : truthyS env.zyteApiKey = false)
    (h3 : truthyS env.browserlessToken = false) :
    (scrapeBookingHotels env today location options beh).1.hotels = [] ∧
    (scrapeBookingHotels env today location options beh).1.debugInfo.lookup "error"
        = some (.s noBackendMsg) ∧
    (scrapeBookingHotels env today location options beh).2 = [] ∧
    containsSub noBackendMsg.data "ZYTE_API_KEY".data = true ∧
    containsSub noBackendMsg.data "BROWSERLESS_TOKEN".data = true ∧
    (∀ beh2, scrapeBookingHotels env today location options beh
        = scrapeBookingHotels env today location options beh2) := by
  refine ⟨?_, ?_, ?_, by decide, by decide, ?_⟩ <;>
    simp [scrapeBookingHotels, h1, h2, h3, List.lookup]

/-- C7 witness at a concrete serverless environment without credentials. -/
theorem serverless_no_backend_witness :
    (scrapeBookingHotels
        { isServerless := true, zyteApiKey := none, browserlessToken := none,
          useZyteEnvFlag := false } 0 "Dubai" {}
        { zyte := .okData "" "", puppeteer := .ok [] [], puppeteer2 := .ok [] [] }).1.hotels = [] ∧
    (scrapeBookingHotels
        { isServerless := true, zyteApiKey := none, browserlessToken := none,
          useZyteEnvFlag := false } 0 "Dubai" {}
        { zyte := .okData "" "", puppeteer := .ok [] [], puppeteer2 := .ok [] [] }).1.debugInfo.lookup "error"
        = some (.s noBackendMsg) ∧
    (scrapeBookingHotels
        { isServerless := true, zyteApiKey := none, browserlessToken := none,
          useZyteEnvFlag := false } 0 "Dubai" {}
        { zyte := .okData "" "", puppeteer := .ok [] [], puppeteer2 := .ok [] [] }).2 = [] ∧
    containsSub noBackendMsg.data "ZYTE_API_KEY".data = true ∧
    containsSub noBackendMsg.data "BROWSERLESS_TOKEN".data = true ∧
    (∀ beh2, scrapeBookingHotels
        { isServerless := true, zyteApiKey := none, browserlessToken := none,
          useZyteEnvFlag := false } 0 "Dubai" {}
        { zyte := .okData "" "", puppeteer := .ok [] [], puppeteer2 := .ok [] [] }
        = scrapeBookingHotels
        { isServerless := true, zyteApiKey := none, browserlessToken := none,
          useZyteEnvFlag := false } 0 "Dubai" {} beh2) :=
  serverless_no_backend _ 0 "Dubai" {} _ rfl rfl rfl

/-! ## C2: exactly one fail-over and its diagnostics -/

/-- Inversion of a successful Zyte call: its diagnostic record always has
the url/contentLength/title shape built at booking.js 120-124. -/
theorem scrapeWithZyte_ok_debug (api : ZyteApi) (h : List HotelSummary)
    (d : Debug) (hok : scrapeWithZyte api = .ok h d) :
    ∃ u html, d = [("url", .s u), ("contentLength", .n (String.length html)),
      ("title", .nul)] ∧ h = extractHotelsFromHTML html.data := by
  cases api with
  | httpErr st txt => simp [scrapeWithZyte] at hok
  | okData u html =>
    simp only [scrapeWithZyte] at hok
    split at hok
    · simp at hok
    · obtain ⟨hh, hd⟩ := ZyteRet.ok.inj hok
      exact ⟨u, html, hd.symm, hh.symm⟩

/-- Assignment to a different key leaves a lookup unchanged. -/
theorem lookup_oset_ne {α : Type} (k k2 : String) (v : α)
    (l : List (String × α)) (h : (k == k2) = false) :
    (oset k2 v l).lookup k = l.lookup k := by
  induction l with
  | nil => simp [oset, List.lookup, h]
  | cons kv r ih =>
    rcases kv with ⟨k3, v3⟩
    by_cases h3 : k2 = k3
    · subst h3
      simp [oset, List.lookup, h]
    · simp only [oset, if_neg h3, List.lookup]
      cases hk3 : (k == k3)
      · simpa [hk3] using ih
      · simp [hk3]

/-- Spreading a record that does not bind a key leaves that lookup to the
left record. -/
theorem lookup_dmerge_right_none {k : String} :
    ∀ (b a : Debug), b.lookup k = none → (dmerge a b).lookup k = a.lookup k := by
  intro b
  induction b with
  | nil => intro a _; rfl
  | cons kv b ih =>
    intro a hb
    rcases kv with ⟨k2, v2⟩
    have hk2 : (k == k2) = false := by
      cases hkk : (k == k2) with
      | false => rfl
      | true => simp [List.lookup, hkk] at hb
    have hb2 : b.lookup k = none := by
      simpa [List.lookup, hk2] using hb
    have := ih (oset k2 v2 a) hb2
    calc (dmerge a ((k2, v2) :: b)).lookup k
        = (dmerge (oset k2 v2 a) b).lookup k := rfl
      _ = (oset k2 v2 a).lookup k := this
      _ = a.lookup k := lookup_oset_ne k k2 v2 a hk2

/-- Env/options condition selecting the Puppeteer-first path. -/
def puppeteerFirst (env : Env) (options : SearchOptions) : Prop :=
  (options.useZyte || (truthyS env.zyteApiKey && env.useZyteEnvFlag)) = false ∧
  (!env.isServerless || truthyS env.browserlessToken) = true

/-- Env/options condition selecting the Zyte-first path. -/
def zyteFirst (env : Env) (options : SearchOptions) : Prop :=
  ((options.useZyte || (truthyS env.zyteApiKey && env.useZyteEnvFlag))
    && truthyS env.zyteApiKey) = true

/-- Components of a false boolean disjunction. -/
theorem bor_false {a b : Bool} (h : (a || b) = false) : a = false ∧ b = false := by
  cases a <;> cases b <;> simp_all

/-- Case split on a true boolean disjunction. -/
theorem bor_true {a b : Bool} (h : (a || b) = true) : a = true ∨ b = true := by
  cases a <;> cases b <;> simp_all

/-- Components of a true boolean conjunction. -/
theorem band_true {a b : Bool} (h : (a && b) = true) : a = true ∧ b = true := by
  cases a <;> cases b <;> simp_all

/-- C2 amended: the controller never makes more than three backend calls;
on the Puppeteer-first path an empty first attempt triggers exactly one
fail-over to Zyte whose non-empty records are returned with
was_fallback true and original_debug in debugInfo; on the Zyte-first path
an empty first attempt triggers exactly one fail-over call to Puppeteer
whose records are returned, but debugInfo then carries no fail-over flag
and still names zyte as the method; and when that fail-over call itself
throws, the inner catch invokes Puppeteer once more, so three backend
calls occur and the second invocation supplies the result. -/
theorem scrapeBookingHotels_failover (env : Env) (today : Nat)
    (location : String) (options : SearchOptions) (beh : Behavior) :
    ((scrapeBookingHotels env today location options beh).2.length ≤ 3) ∧
    (∀ d hz u zhtml, puppeteerFirst env options →
      beh.puppeteer = .ok [] d →
      truthyS env.zyteApiKey = true → options.noRetry = false →
      scrapeWithZyte beh.zyte
        = .ok hz [("url", .s u), ("contentLength", .n zhtml), ("title", .nul)] →
      hz ≠ [] →
      (scrapeBookingHotels env today location options beh).1.hotels = hz ∧
      (scrapeBookingHotels env today location options beh).2 = [.puppeteer, .zyte] ∧
      (scrapeBookingHotels env today location options beh).1.debugInfo.lookup
          "was_fallback" = some (.b true) ∧
      (scrapeBookingHotels env today location options beh).1.debugInfo.lookup
          "original_debug" = some (.obj d) ∧
      (scrapeBookingHotels env today location options beh).1.debugInfo.lookup
          "method" = some (.s "puppeteer")) ∧
    (∀ dz hp dp, zyteFirst env options →
      scrapeWithZyte beh.zyte = .ok [] dz →
      env.isServerless = false →
      beh.puppeteer = .ok hp dp →
      (scrapeBookingHotels env today location options beh).1.hotels = hp ∧
      (scrapeBookingHotels env today location options beh).2 = [.zyte, .puppeteer] ∧
      (dp.lookup "was_fallback" = none →
        (scrapeBookingHotels env today location options beh).1.debugInfo.lookup
          "was_fallback" = none) ∧
      (dp.lookup "method" = none →
        (scrapeBookingHotels env today location options beh).1.debugInfo.lookup
          "method" = some (.s "zyte"))) ∧
    (∀ dz e2 hp2 dp2, zyteFirst env options →
      scrapeWithZyte beh.zyte = .ok [] dz →
      env.isServerless = false →
      beh.puppeteer = .thrown e2 →
      beh.puppeteer2 = .ok hp2 dp2 →
      (scrapeBookingHotels env today location options beh).1.hotels = hp2 ∧
      (scrapeBookingHotels env today location options beh).2
        = [.zyte, .puppeteer, .puppeteer]) := by
  refine ⟨?_, ?_, ?_, ?_⟩
  · simp only [scrapeBookingHotels]
    repeat' split
    all_goals simp
  · intro d hz u zhtml hpf hp hk hnr hzy hne
    obtain ⟨hA, hB⟩ := hpf
    have hEmpty : hz.isEmpty = false := by
      cases hz with
      | nil => exact absurd rfl hne
      | cons a l => rfl
    obtain ⟨hUZ, hAnd⟩ := bor_false hA
    have hFlag : env.useZyteEnvFlag = false := by
      rw [hk] at hAnd
      simpa using hAnd
    have hfull : scrapeBookingHotels env today location options beh
        = ({ hotels := hz,
             debugInfo := dmerge
               [("method", DVal.s "puppeteer"),
                ("url", DVal.s (buildSearchURL today location options)),
                ("count", DVal.n hz.length)]
               (dmerge
                 [("url", DVal.s u), ("contentLength", DVal.n zhtml), ("title", DVal.nul)]
                 [("was_fallback", DVal.b true), ("original_debug", DVal.obj d)]) },
           [.puppeteer, .zyte]) := by
      rcases bor_true hB with hns | htk
      · have hsl : env.isServerless = false := by
          cases hsv : env.isServerless
          · rfl
          · rw [hsv] at hns
            exact absurd hns (by decide)
        simp [scrapeBookingHotels, hUZ, hk, hFlag, hsl, hp, hnr, hzy, hEmpty, hne]
      · simp [scrapeBookingHotels, hUZ, hk, hFlag, htk, hp, hnr, hzy, hEmpty, hne]
    refine ⟨?_, ?_, ?_, ?_, ?_⟩ <;> rw [hfull]
    all_goals rfl
  · intro dz hp dp hzf hzy hsl hpp
    obtain ⟨h1, h2⟩ := band_true hzf
    have hfull : scrapeBookingHotels env today location options beh
        = ({ hotels := hp,
             debugInfo := dmerge
               [("method", DVal.s "zyte"),
                ("url", DVal.s (buildSearchURL today location options)),
                ("count", DVal.n hp.length)] dp },
           [.zyte, .puppeteer]) := by
      rcases bor_true h1 with hUZ | hAnd
      · simp [scrapeBookingHotels, hUZ, h2, hzy, hsl, hpp]
      · obtain ⟨_, hFlag⟩ := band_true hAnd
        simp [scrapeBookingHotels, hFlag, h2, hzy, hsl, hpp]
    refine ⟨?_, ?_, ?_, ?_⟩
    · rw [hfull]
    · rw [hfull]
    · intro hwf
      rw [hfull]
      show (dmerge _ dp).lookup "was_fallback" = none
      rw [lookup_dmerge_right_none dp _ hwf]
      rfl
    · intro hm
      rw [hfull]
      show (dmerge _ dp).lookup "method" = some (.s "zyte")
      rw [lookup_dmerge_right_none dp _ hm]
      rfl
  · intro dz e2 hp2 dp2 hzf hzy hsl hpp hpp2
    obtain ⟨h1, h2⟩ := band_true hzf
    have hfull : scrapeBookingHotels env today location options beh
        = ({ hotels := hp2,
             debugInfo := dmerge
               [("method", DVal.s "zyte"),
                ("url", DVal.s (buildSearchURL today location options)),
                ("count", DVal.n hp2.length)] dp2 },
           [.zyte, .puppeteer, .puppeteer]) := by
      rcases bor_true h1 with hUZ | hAnd
      · simp [scrapeBookingHotels, hUZ, h2, hzy, hsl, hpp, hpp2]
      · obtain ⟨_, hFlag⟩ := band_true hAnd
        simp [scrapeBookingHotels, hFlag, h2, hzy, hsl, hpp, hpp2]
    exact ⟨by rw [hfull], by rw [hfull]⟩

/-- Environment of the C2 counterexample: Zyte configured and selected,
local execution. -/
def c2Env : Env :=
  { isServerless := false, zyteApiKey := some "k", browserlessToken := none,
    useZyteEnvFlag := true }

/-- Two records produced by the second (Puppeteer) backend. -/
def c2HotelA : HotelSummary :=
  { name := "Hotel A", link := none, picture_url := none, rating := none,
    reviews_count := none, location := none, price_per_night := none,
    currency := some "$" }

/-- Second record of the fail-over result. -/
def c2HotelB : HotelSummary := { c2HotelA with name := "Hotel B" }

/-- Backend behavior of the C2 counterexample: the first (Zyte) attempt
renders a page with no property cards, the second (Puppeteer) attempt
returns two records. -/
def c2Beh : Behavior :=
  { zyte := .okData "https://www.booking.com/searchresults.html" "<html></html>",
    puppeteer := .ok [c2HotelA, c2HotelB] [("title", .s "t")],
    puppeteer2 := .thrown "unreachable" }

/-- C2 counterexample: on the Zyte-first path, a first attempt with zero
records fails over to Puppeteer and returns its two records, yet the
returned debugInfo carries no fail-over indication at all and still names
zyte as the method, contradicting the claim that debugInfo indicates the
fail-over and the backend that ultimately produced the result. -/
theorem failover_unflagged_cex :
    (scrapeBookingHotels c2Env 0 "Dubai" {} c2Beh).1.hotels = [c2HotelA, c2HotelB] ∧
    (scrapeBookingHotels c2Env 0 "Dubai" {} c2Beh).2 = [.zyte, .puppeteer] ∧
    (scrapeBookingHotels c2Env 0 "Dubai" {} c2Beh).1.debugInfo.lookup "was_fallback"
        = none ∧
    (scrapeBookingHotels c2Env 0 "Dubai" {} c2Beh).1.debugInfo.lookup "method"
        = some (.s "zyte") := by
  refine ⟨by decide, by decide, rfl, rfl⟩

set_option maxRecDepth 100000 in
/-- C2 witness: the amended theorem applied at concrete inputs, on the
Puppeteer-first fail-over path and on the Zyte-first path whose fallback
throws, where the retry from the inner catch yields three backend calls. -/
theorem scrapeBookingHotels_failover_witness :
    (scrapeBookingHotels
        { isServerless := false, zyteApiKey := some "k", browserlessToken := none,
          useZyteEnvFlag := false } 0 "Dubai" {}
        { zyte := .okData "https://x/y" c5Fragment,
          puppeteer := .ok [] [("title", .s "p")], puppeteer2 := .thrown "u" }).1.hotels = [c5Record] ∧
    (scrapeBookingHotels
        { isServerless := false, zyteApiKey := some "k", browserlessToken := none,
          useZyteEnvFlag := false } 0 "Dubai" {}
        { zyte := .okData "https://x/y" c5Fragment,
          puppeteer := .ok [] [("title", .s "p")], puppeteer2 := .thrown "u" }).2 = [.puppeteer, .zyte] ∧
    (scrapeBookingHotels
        { isServerless := false, zyteApiKey := some "k", browserlessToken := none,
          useZyteEnvFlag := false } 0 "Dubai" {}
        { zyte := .okData "https://x/y" c5Fragment,
          puppeteer := .ok [] [("title", .s "p")], puppeteer2 := .thrown "u" }).1.debugInfo.lookup "was_fallback"
        = some (.b true) ∧
    (scrapeBookingHotels
        { isServerless := false, zyteApiKey := some "k", browserlessToken := none,
          useZyteEnvFlag := true } 0 "Dubai" {}
        { zyte := .okData "https://x/y" "<html></html>",
          puppeteer := .thrown "browser crash",
          puppeteer2 := .ok [c2HotelA] [("title", .s "q")] }).1.hotels = [c2HotelA] ∧
    (scrapeBookingHotels
        { isServerless := false, zyteApiKey := some "k", browserlessToken := none,
          useZyteEnvFlag := true } 0 "Dubai" {}
        { zyte := .okData "https://x/y" "<html></html>",
          puppeteer := .thrown "browser crash",
          puppeteer2 := .ok [c2HotelA] [("title", .s "q")] }).2
        = [.zyte, .puppeteer, .puppeteer] := by
  have h := (scrapeBookingHotels_failover
      { isServerless := false, zyteApiKey := some "k", browserlessToken := none,
        useZyteEnvFlag := false } 0 "Dubai" {}
      { zyte := .okData "https://x/y" c5Fragment,
        puppeteer := .ok [] [("title", .s "p")], puppeteer2 := .thrown "u" }).2.1
      [("title", .s "p")] [c5Record] "https://x/y" c5Fragment.length
      ⟨rfl, rfl⟩ rfl rfl rfl rfl (by decide)
  have h4 := (scrapeBookingHotels_failover
      { isServerless := false, zyteApiKey := some "k", browserlessToken := none,
        useZyteEnvFlag := true } 0 "Dubai" {}
      { zyte := .okData "https://x/y" "<html></html>",
        puppeteer := .thrown "browser crash",
        puppeteer2 := .ok [c2HotelA] [("title", .s "q")] }).2.2.2
      [("url", .s "https://x/y"), ("contentLength", .n 13), ("title", .nul)]
      "browser crash" [c2HotelA] [("title", .s "q")]
      rfl rfl rfl rfl rfl
  exact ⟨h.1, h.2.1, h.2.2.1, h4.1, h4.2⟩

/-! ## C4: nearby-places discovery -/

/-- Every entry produced by the discovery pass has a non-empty item list. -/
theorem discoveryPass_nonempty (scope : List Char) :
    ∀ kv ∈ discoveryPass scope, kv.2 ≠ ([] : List AreaItem) := by
  unfold discoveryPass
  refine foldl_inv
    (fun ai : List (String × List AreaItem) => ∀ kv ∈ ai, kv.2 ≠ []) _ ?_ _ _
    (by intro kv hkv; simp at hkv)
  intro ai cp h kv hkv
  simp only [ne_eq] at hkv
  split at hkv
  · exact h kv hkv
  · split at hkv
    · exact h kv hkv
    · split at hkv
      · exact h kv hkv
      · split at hkv
        · rename_i hitems
          rcases mem_oset hkv with heq | hm
          · subst heq
            simpa using hitems
          · exact h kv hm
        · exact h kv hkv

/-- Every entry produced by the fallback pass has a non-empty item list. -/
theorem fallbackPass_nonempty (scope : List Char)
    (ai0 : List (String × List AreaItem))
    (h0 : ∀ kv ∈ ai0, kv.2 ≠ ([] : List AreaItem)) :
    ∀ kv ∈ fallbackPass scope ai0, kv.2 ≠ ([] : List AreaItem) := by
  unfold fallbackPass
  refine foldl_inv
    (fun ai : List (String × List AreaItem) => ∀ kv ∈ ai, kv.2 ≠ []) _ ?_ _ _ h0
  intro ai label h kv hkv
  simp only [ne_eq] at hkv
  split at hkv
  · exact h kv hkv
  · split at hkv
    · exact h kv hkv
    · split at hkv
      · rename_i hits
        rcases mem_oset hkv with heq | hm
        · subst heq
          simpa using hits
        · exact h kv hm
      · exact h kv hkv

/-- Zero-item categories never appear in area_info. -/
theorem areaInfo_entries_nonempty (html : List Char) :
    ∀ kv ∈ areaInfoOf html, kv.2 ≠ ([] : List AreaItem) := by
  unfold areaInfoOf
  intro kv hkv
  simp only [ne_eq] at hkv
  split at hkv
  · split at hkv
    · rename_i hcond
      rcases mem_oset hkv with heq | hm
      · subst heq
        simpa using hcond.1
      · exact fallbackPass_nonempty _ _ (discoveryPass_nonempty _) kv hm
    · exact fallbackPass_nonempty _ _ (discoveryPass_nonempty _) kv hkv
  · split at hkv
    · rename_i hcond
      rcases mem_oset hkv with heq | hm
      · subst heq
        simpa using hcond.1
      · exact discoveryPass_nonempty _ kv hm
    · exact discoveryPass_nonempty _ kv hkv

/-- Surroundings fragment with three heading-and-list blocks, one of them
an unseen category label. -/
def c4Fragment : String :=
  "<section><h3>Top Attractions</h3><div role=\"listitem\"><span>City Museum 1.2 km</span></div><h3>Closest Airports</h3><div role=\"listitem\"><span>City Airport 5 km</span></div><h3>Space Elevators</h3><div role=\"listitem\"><span>Orbit Tower 300 m</span></div></section>"

/-- Surroundings fragment whose heading key hits the discovery blacklist. -/
def c4BadFragment : String :=
  "<section><h3>Security check area</h3><div role=\"listitem\"><span>Gate 1 40 m</span></div></section>"

set_option maxRecDepth 400000 in
/-- C4 counterexample: this fragment contains a heading followed by a block
of list items with a parseable distance, yet discovery produces no
area_info entry at all, because the derived key security_check_area matches
the blacklist word check; the claim that every heading-plus-list fragment
yields a correctly-keyed entry therefore fails. -/
theorem areaInfo_blacklisted_heading_cex :
    areaInfoOf c4BadFragment.data = [] ∧
    String.mk (categoryToKey "Security check area".data) = "security_check_area" := by
  exact ⟨by decide, by decide⟩

set_option maxRecDepth 400000 in
/-- C4 amended: for headings that pass the discovery filters (3 to 40
characters, key not matching the exclusion pattern, not distance-shaped, at
most 50 characters with no question mark or closing brace), discovery
produces an entry keyed by the normalized heading with the trailing
distance token split off each item, unseen labels included; ampersands fold
to the word and; and categories yielding zero items are omitted. -/
theorem areaInfo_discovery :
    areaInfoOf c4Fragment.data =
      [("top_attractions",
        [{ name := "City Museum", distance := some "1.2 km", code := none }]),
       ("closest_airports",
        [{ name := "City Airport", distance := some "5 km", code := none }]),
       ("space_elevators",
        [{ name := "Orbit Tower", distance := some "300 m", code := none }])] ∧
    String.mk (categoryToKey "Restaurants &amp; Cafes".data)
      = "restaurants_and_cafes" ∧
    (∀ html kv, kv ∈ areaInfoOf html → kv.2 ≠ ([] : List AreaItem)) := by
  exact ⟨by decide, by decide, fun html kv hkv => areaInfo_entries_nonempty html kv hkv⟩

set_option maxRecDepth 400000 in
/-- C4 witness: the omission property applied to the top-attractions entry
of the concrete fragment. -/
theorem areaInfo_discovery_witness :
    ((("top_attractions",
       [{ name := "City Museum", distance := some "1.2 km", code := none }])
      : String × List AreaItem).2 ≠ ([] : List AreaItem)) :=
  areaInfo_discovery.2.2 c4Fragment.data _
    (by rw [areaInfo_discovery.1]; exact List.mem_cons_self _ _)

/-! ## C8: coordinates are a both-or-neither pair -/

/-- Structural test: does the pattern bind group i on every successful
match (lookahead bodies excluded, both alternation branches required). -/
def hasGrp (i : Nat) : Pat → Bool
  | .grp j r => (i == j) || hasGrp i r
  | .seq a b => hasGrp i a || hasGrp i b
  | .alt a b => hasGrp i a && hasGrp i b
  | _ => false

/-- Recorded capture is found again. -/
theorem capSet_self (i : Nat) (v : List Char) :
    ∀ cp : Caps, ((capSet i v cp).lookup i).isSome = true := by
  intro cp
  induction cp with
  | nil => simp [capSet, List.lookup]
  | cons kv r ih =>
    rcases kv with ⟨j, w⟩
    by_cases hij : i = j
    · simp [capSet, hij, List.lookup]
    · simp only [capSet, if_neg hij, List.lookup]
      cases hb : (i == j)
      · simpa [hb] using ih
      · simp at hb
        exact absurd hb hij

/-- Recording one capture preserves the presence of the others. -/
theorem capSet_other (i q : Nat) (v : List Char) (h : (q == i) = false) :
    ∀ cp : Caps, ((capSet i v cp).lookup q) = cp.lookup q := by
  intro cp
  induction cp with
  | nil => simp [capSet, List.lookup, h]
  | cons kv r ih =>
    rcases kv with ⟨j, w⟩
    by_cases hij : i = j
    · subst hij
      simp [capSet, List.lookup, h]
    · simp only [capSet, if_neg hij, List.lookup]
      cases hb : (q == j)
      · simpa [hb] using ih
      · simp [hb]

/-- Greedy backtracking hits one of the candidate counts. -/
theorem tryDown_ex (g : Nat → Option Caps) :
    ∀ (m : Nat) (res : Caps), tryDown g m = some res → ∃ j, g j = some res := by
  intro m
  induction m with
  | zero => intro res h; exact ⟨0, h⟩
  | succ n ih =>
    intro res h
    simp only [tryDown] at h
    cases hg : g (n + 1) with
    | some r => rw [hg] at h; exact ⟨n + 1, hg.trans h⟩
    | none => rw [hg] at h; exact ih res h

/-- Lazy backtracking hits one of the candidate counts. -/
theorem tryUp_ex (g : Nat → Option Caps) :
    ∀ (n i : Nat) (res : Caps), tryUp g n i = some res → ∃ j, g j = some res := by
  intro n
  induction n with
  | zero => intro i res h; exact ⟨i, h⟩
  | succ n ih =>
    intro i res h
    simp only [tryUp] at h
    cases hg : g i with
    | some r => rw [hg] at h; exact ⟨i, hg.trans h⟩
    | none => rw [hg] at h; exact ih (i + 1) res h

/-- Soundness of hasGrp: a successful match invokes its continuation with
captures containing every group that hasGrp reports, and every capture
already present. -/
theorem mtch_caps :
    ∀ (r : Pat) (s : List Char) (pr : Option Char) (cp : Caps) (k : K) (res : Caps),
      mtch r s pr cp k = some res →
      ∃ s2 pr2 cp2,
        (∀ q, (hasGrp q r = true ∨ (cp.lookup q).isSome = true) →
          (cp2.lookup q).isSome = true) ∧
        k s2 pr2 cp2 = some res := by
  intro r
  induction r with
  | eps =>
    intro s pr cp k res h
    exact ⟨s, pr, cp, fun q hq => hq.resolve_left (by simp [hasGrp]), h⟩
  | lit ci t =>
    intro s pr cp k res h
    simp only [mtch] at h
    rcases hls : litStep ci t s pr with _ | ⟨s2, pr2⟩
    · rw [hls] at h; exact absurd h (by simp)
    · rw [hls] at h
      exact ⟨s2, pr2, cp, fun q hq => hq.resolve_left (by simp [hasGrp]), h⟩
  | one p =>
    intro s pr cp k res h
    simp only [mtch] at h
    cases s with
    | nil => exact absurd h (by simp)
    | cons c s2 =>
      change (if p c = true then k s2 (some c) cp else none) = some res at h
      by_cases hp : p c = true
      · rw [if_pos hp] at h
        exact ⟨s2, some c, cp, fun q hq => hq.resolve_left (by simp [hasGrp]), h⟩
      · rw [if_neg hp] at h
        exact absurd h (by simp)
  | starG p =>
    intro s pr cp k res h
    simp only [mtch] at h
    rcases tryDown_ex _ _ _ h with ⟨j, hj⟩
    exact ⟨_, _, cp, fun q hq => hq.resolve_left (by simp [hasGrp]), hj⟩
  | starL p =>
    intro s pr cp k res h
    simp only [mtch] at h
    rcases tryUp_ex _ _ _ _ h with ⟨j, hj⟩
    exact ⟨_, _, cp, fun q hq => hq.resolve_left (by simp [hasGrp]), hj⟩
  | plusG p =>
    intro s pr cp k res h
    simp only [mtch] at h
    rcases tryDown_ex _ _ _ h with ⟨j, hj⟩
    by_cases hj0 : j = 0
    · rw [if_pos hj0] at hj; exact absurd hj (by simp)
    · rw [if_neg hj0] at hj
      exact ⟨_, _, cp, fun q hq => hq.resolve_left (by simp [hasGrp]), hj⟩
  | repL lo hi p =>
    intro s pr cp k res h
    simp only [mtch] at h
    split at h
    · rcases tryUp_ex _ _ _ _ h with ⟨j, hj⟩
      exact ⟨_, _, cp, fun q hq => hq.resolve_left (by simp [hasGrp]), hj⟩
    · exact absurd h (by simp)
  | repG lo hi p =>
    intro s pr cp k res h
    simp only [mtch] at h
    split at h
    · rcases tryDown_ex _ _ _ h with ⟨j, hj⟩
      by_cases hjlo : j < lo
      · rw [if_pos hjlo] at hj; exact absurd hj (by simp)
      · rw [if_neg hjlo] at hj
        exact ⟨_, _, cp, fun q hq => hq.resolve_left (by simp [hasGrp]), hj⟩
    · exact absurd h (by simp)
  | seq a b iha ihb =>
    intro s pr cp k res h
    simp only [mtch] at h
    rcases iha _ _ _ _ _ h with ⟨s2, pr2, cp2, P2, h2⟩
    rcases ihb _ _ _ _ _ h2 with ⟨s3, pr3, cp3, P3, h3⟩
    refine ⟨s3, pr3, cp3, ?_, h3⟩
    intro q hq
    rcases hq with hq | hq
    · have : hasGrp q a = true ∨ hasGrp q b = true := by
        have : (hasGrp q a || hasGrp q b) = true := hq
        exact bor_true this
      rcases this with hqa | hqb
      · exact P3 q (Or.inr (P2 q (Or.inl hqa)))
      · exact P3 q (Or.inl hqb)
    · exact P3 q (Or.inr (P2 q (Or.inr hq)))
  | alt a b iha ihb =>
    intro s pr cp k res h
    simp only [mtch] at h
    cases hma : mtch a s pr cp k with
    | some r1 =>
      rw [hma] at h
      rcases iha _ _ _ _ _ (hma.trans h) with ⟨s2, pr2, cp2, P2, h2⟩
      refine ⟨s2, pr2, cp2, ?_, h2⟩
      intro q hq
      rcases hq with hq | hq
      · exact P2 q (Or.inl (band_true hq).1)
      · exact P2 q (Or.inr hq)
    | none =>
      rw [hma] at h
      rcases ihb _ _ _ _ _ h with ⟨s2, pr2, cp2, P2, h2⟩
      refine ⟨s2, pr2, cp2, ?_, h2⟩
      intro q hq
      rcases hq with hq | hq
      · exact P2 q (Or.inl (band_true hq).2)
      · exact P2 q (Or.inr hq)
  | grp j r ih =>
    intro s pr cp k res h
    simp only [mtch] at h
    rcases ih _ _ _ _ _ h with ⟨s2, pr2, cp2, P2, h2⟩
    refine ⟨s2, pr2, capSet j (s.take (s.length - s2.length)) cp2, ?_, h2⟩
    intro q hq
    by_cases hqj : (q == j) = true
    · have : q = j := by simpa using hqj
      subst this
      exact capSet_self q _ cp2
    · have hne : (q == j) = false := by
        cases hb : (q == j)
        · rfl
        · exact absurd hb hqj
      rw [capSet_other j q _ hne cp2]
      rcases hq with hq | hq
      · have : ((q == j) || hasGrp q r) = true := hq
        rcases bor_true this with hb | hb
        · exact absurd hb hqj
        · exact P2 q (Or.inl hb)
      · exact P2 q (Or.inr hq)
  | wb =>
    intro s pr cp k res h
    simp only [mtch] at h
    split at h
    · exact ⟨s, pr, cp, fun q hq => hq.resolve_left (by simp [hasGrp]), h⟩
    · exact absurd h (by simp)
  | la r ih =>
    intro s pr cp k res h
    simp only [mtch] at h
    cases hin : mtch r s pr cp (fun _ _ cp2 => some cp2) with
    | some r1 =>
      rw [hin] at h
      exact ⟨s, pr, cp, fun q hq => hq.resolve_left (by simp [hasGrp]), h⟩
    | none =>
      rw [hin] at h
      exact absurd h (by simp)
  | eos =>
    intro s pr cp k res h
    simp only [mtch] at h
    cases s with
    | nil => exact ⟨[], pr, cp, fun q hq => hq.resolve_left (by simp [hasGrp]), h⟩
    | cons c s2 => exact absurd h (by simp)

/-- A successful anchored run binds every group hasGrp reports. -/
theorem mrun_key (r : Pat) (i : Nat) (s : List Char) (pr : Option Char)
    (cp : Caps) (h : mrun r s pr = some cp) (hg : hasGrp i r = true) :
    (cp.lookup i).isSome = true := by
  unfold mrun at h
  rcases mtch_caps _ _ _ _ _ _ h with ⟨s2, pr2, cp2, P2, h2⟩
  have hcp : cp = cp2 := (Option.some.inj h2).symm
  subst hcp
  refine P2 i (Or.inl ?_)
  show ((i == 0) || hasGrp i r) = true
  rw [hg, Bool.or_true]

/-- A successful search binds every group hasGrp reports. -/
theorem reFindAux_key (r : Pat) (i : Nat) :
    ∀ (s : List Char) (pr : Option Char) (idx n : Nat) (cp : Caps),
      reFindAux r s pr idx = some (n, cp) → hasGrp i r = true →
      (cp.lookup i).isSome = true := by
  intro s
  induction s with
  | nil =>
    intro pr idx n cp h hg
    simp only [reFindAux] at h
    cases hm : mrun r [] pr with
    | some c =>
      rw [hm] at h
      simp only [Option.map_some'] at h
      have : c = cp := congrArg Prod.snd (Option.some.inj h)
      subst this
      exact mrun_key r i [] pr c hm hg
    | none => rw [hm] at h; exact absurd h (by simp)
  | cons c s2 ih =>
    intro pr idx n cp h hg
    simp only [reFindAux] at h
    cases hm : mrun r (c :: s2) pr with
    | some c2 =>
      rw [hm] at h
      have : c2 = cp := congrArg Prod.snd (Option.some.inj h)
      subst this
      exact mrun_key r i (c :: s2) pr c2 hm hg
    | none =>
      rw [hm] at h
      exact ih (some c) (idx + 1) n cp h hg

/-- On patterns that always bind a group, the group accessor succeeds
exactly when the match succeeds. -/
theorem matchGrp_isSome (r : Pat) (i : Nat) (s : List Char)
    (hg : hasGrp i r = true) :
    (matchGrp r s i).isSome = (reMatch r s).isSome := by
  unfold matchGrp reMatch
  cases hf : reFindAux r s none 0 with
  | none => rfl
  | some nc =>
    rcases nc with ⟨n, cp⟩
    simp only [Option.map_some']
    show (capGet cp i).isSome = true
    exact reFindAux_key r i s none 0 n cp hf hg

/-- C8 counterexample: a page carrying only a data-lat attribute yields a
latitude with no longitude, so the coordinates pair is half-populated. -/
theorem coordinates_half_populated_cex :
    ((coordinatesOf ("<div data-lat=\"25.2\"></div>".data)).latitude).isSome = true ∧
    (coordinatesOf ("<div data-lat=\"25.2\"></div>".data)).longitude = none := by
  exact ⟨by decide, by decide⟩

/-- C8 amended: latitude and longitude are both present or both absent on
every page in which the data-lat attribute pattern matches exactly when the
data-lng attribute pattern does; the geo/JSON patterns always bind both
sides, only the independent data-attribute fallback can split the pair. -/
theorem coordinates_both_or_neither (html : List Char)
    (h : (reMatch latAttrRE html).isSome = (reMatch lngAttrRE html).isSome) :
    ((coordinatesOf html).latitude).isSome = ((coordinatesOf html).longitude).isSome := by
  unfold coordinatesOf
  cases h1 : reMatch coordsJsonRE1 html with
  | some cp =>
    simp only [h1]
    have hl := reFindAux_key coordsJsonRE1 1 html none 0
    have hr := reFindAux_key coordsJsonRE1 2 html none 0
    unfold reMatch at h1
    cases hf : reFindAux coordsJsonRE1 html none 0 with
    | none => rw [hf] at h1; exact absurd h1 (by simp)
    | some nc =>
      rcases nc with ⟨n, cp2⟩
      rw [hf] at h1
      simp only [Option.map_some'] at h1
      have hcp : cp2 = cp := Option.some.inj h1
      subst hcp
      have e1 : ((cp2.lookup 1).isSome) = true := hl n cp2 hf (by rfl)
      have e2 : ((cp2.lookup 2).isSome) = true := hr n cp2 hf (by rfl)
      simp only [Option.isSome_map']
      rw [show (capGet cp2 1) = cp2.lookup 1 from rfl,
          show (capGet cp2 2) = cp2.lookup 2 from rfl, e1, e2]
  | none =>
    simp only [h1]
    cases h2 : reMatch coordsJsonRE2 html with
    | some cp =>
      have hl := reFindAux_key coordsJsonRE2 1 html none 0
      have hr := reFindAux_key coordsJsonRE2 2 html none 0
      unfold reMatch at h2
      cases hf : reFindAux coordsJsonRE2 html none 0 with
      | none => rw [hf] at h2; exact absurd h2 (by simp)
      | some nc =>
        rcases nc with ⟨n, cp2⟩
        rw [hf] at h2
        simp only [Option.map_some'] at h2
        have hcp : cp2 = cp := Option.some.inj h2
        subst hcp
        have e1 : ((cp2.lookup 1).isSome) = true := hl n cp2 hf (by rfl)
        have e2 : ((cp2.lookup 2).isSome) = true := hr n cp2 hf (by rfl)
        simp only [h2, Option.isSome_map']
        rw [show (capGet cp2 1) = cp2.lookup 1 from rfl,
            show (capGet cp2 2) = cp2.lookup 2 from rfl, e1, e2]
    | none =>
      simp only [h2, Option.isSome_map']
      rw [show (matchGrp latAttrRE html 1).isSome = (reMatch latAttrRE html).isSome
            from matchGrp_isSome latAttrRE 1 html (by rfl),
          show (matchGrp lngAttrRE html 1).isSome = (reMatch lngAttrRE html).isSome
            from matchGrp_isSome lngAttrRE 1 html (by rfl), h]

/-- C8 witness: the amended theorem at a page without coordinates. -/
theorem coordinates_both_or_neither_witness :
    ((coordinatesOf ("<p>plain</p>".data)).latitude).isSome
      = ((coordinatesOf ("<p>plain</p>".data)).longitude).isSome :=
  coordinates_both_or_neither ("<p>plain</p>".data) (by decide)

end Booking
